import Mathlib

/-
Verification of the afterzin ticketing core against its specification.

Go strings and byte slices are modelled uniformly as lists of byte values
(`Str := List Nat`); every string the claims touch is ASCII, and the Go
conversion into bytes is the identity on such strings.
-/

set_option maxRecDepth 10000

abbrev Str := List Nat

/-- Byte string of an ASCII string literal (Go `[]byte(s)` for ASCII `s`). -/
def chars (s : String) : Str := s.data.map (fun c => c.toNat)

/- ---------------------------------------------------------------------
   SHA-256 (crypto/sha256), executable, over byte lists.
   --------------------------------------------------------------------- -/

def m32 : Nat := 4294967296

def rotr32 (x n : Nat) : Nat := ((x >>> n) ||| (x <<< (32 - n))) % m32

def bigS0 (x : Nat) : Nat := Nat.xor (rotr32 x 2) (Nat.xor (rotr32 x 13) (rotr32 x 22))

def bigS1 (x : Nat) : Nat := Nat.xor (rotr32 x 6) (Nat.xor (rotr32 x 11) (rotr32 x 25))

def smallS0 (x : Nat) : Nat := Nat.xor (rotr32 x 7) (Nat.xor (rotr32 x 18) (x >>> 3))

def smallS1 (x : Nat) : Nat := Nat.xor (rotr32 x 17) (Nat.xor (rotr32 x 19) (x >>> 10))

def chFn (x y z : Nat) : Nat := Nat.xor (x &&& y) ((Nat.xor x 4294967295) &&& z)

def majFn (x y z : Nat) : Nat := Nat.xor (x &&& y) (Nat.xor (x &&& z) (y &&& z))

def sha256K : List Nat :=
  [1116352408, 1899447441, 3049323471, 3921009573, 961987163,
   1508970993, 2453635748, 2870763221, 3624381080, 310598401,
   607225278, 1426881987, 1925078388, 2162078206, 2614888103,
   3248222580, 3835390401, 4022224774, 264347078, 604807628,
   770255983, 1249150122, 1555081692, 1996064986, 2554220882,
   2821834349, 2952996808, 3210313671, 3336571891, 3584528711,
   113926993, 338241895, 666307205, 773529912, 1294757372,
   1396182291, 1695183700, 1986661051, 2177026350, 2456956037,
   2730485921, 2820302411, 3259730800, 3345764771, 3516065817,
   3600352804, 4094571909, 275423344, 430227734, 506948616,
   659060556, 883997877, 958139571, 1322822218, 1537002063,
   1747873779, 1955562222, 2024104815, 2227730452, 2361852424,
   2428436474, 2756734187, 3204031479, 3329325298]

structure Hash8 where
  a : Nat
  b : Nat
  c : Nat
  d : Nat
  e : Nat
  f : Nat
  g : Nat
  h : Nat
deriving DecidableEq

def sha256H0 : Hash8 :=
  { a := 1779033703, b := 3144134277, c := 1013904242, d := 2773480762,
    e := 1359893119, f := 2600822924, g := 528734635, h := 1541459225 }

def sha256Round (s : Hash8) (kw : Nat) : Hash8 :=
  let t1 := (s.h + bigS1 s.e + chFn s.e s.f s.g + kw) % m32
  let t2 := (bigS0 s.a + majFn s.a s.b s.c) % m32
  { a := (t1 + t2) % m32, b := s.a, c := s.b, d := s.c,
    e := (s.d + t1) % m32, f := s.e, g := s.f, h := s.g }

def bytesToWords : Str → List Nat
  | b0 :: b1 :: b2 :: b3 :: rest =>
      (((b0 % 256) <<< 24) + ((b1 % 256) <<< 16) + ((b2 % 256) <<< 8) + (b3 % 256)) :: bytesToWords rest
  | _ => []

def sha256Extend (w : List Nat) : Nat → List Nat
  | 0 => w
  | n + 1 =>
      let nw := (smallS1 (w.getD (w.length - 2) 0) + w.getD (w.length - 7) 0 +
                 smallS0 (w.getD (w.length - 15) 0) + w.getD (w.length - 16) 0) % m32
      sha256Extend (w ++ [nw]) n

def sha256Compress (s : Hash8) (block : Str) : Hash8 :=
  let w := sha256Extend (bytesToWords block) 48
  let t := (List.zipWith (fun k wi => (k + wi) % m32) sha256K w).foldl sha256Round s
  { a := (s.a + t.a) % m32, b := (s.b + t.b) % m32, c := (s.c + t.c) % m32, d := (s.d + t.d) % m32,
    e := (s.e + t.e) % m32, f := (s.f + t.f) % m32, g := (s.g + t.g) % m32, h := (s.h + t.h) % m32 }

def sha256LenBytes (bits : Nat) : Str :=
  [(bits >>> 56) % 256, (bits >>> 48) % 256, (bits >>> 40) % 256, (bits >>> 32) % 256,
   (bits >>> 24) % 256, (bits >>> 16) % 256, (bits >>> 8) % 256, bits % 256]

def sha256Pad (msg : Str) : Str :=
  let padLen := (64 - ((msg.length + 9) % 64)) % 64
  msg ++ 128 :: (List.replicate padLen 0 ++ sha256LenBytes (msg.length * 8))

def chunks64Aux : Nat → Str → List Str
  | 0, _ => []
  | _, [] => []
  | fuel + 1, c :: rest => ((c :: rest).take 64) :: chunks64Aux fuel ((c :: rest).drop 64)

def chunks64 (l : Str) : List Str := chunks64Aux l.length l

def wordBytes (w : Nat) : Str := [(w >>> 24) % 256, (w >>> 16) % 256, (w >>> 8) % 256, w % 256]

def sha256 (msg : Str) : Str :=
  let fin := (chunks64 (sha256Pad msg)).foldl sha256Compress sha256H0
  wordBytes fin.a ++ wordBytes fin.b ++ wordBytes fin.c ++ wordBytes fin.d ++
  wordBytes fin.e ++ wordBytes fin.f ++ wordBytes fin.g ++ wordBytes fin.h

/-- HMAC-SHA-256 (crypto/hmac with sha256.New): block size 64. -/
def hmacSha256 (key msg : Str) : Str :=
  let k0 := if key.length > 64 then sha256 key else key
  let k := k0 ++ List.replicate (64 - k0.length) 0
  sha256 ((k.map (fun b => b ^^^ 0x5c)) ++ sha256 ((k.map (fun b => b ^^^ 0x36)) ++ msg))

/- ---------------------------------------------------------------------
   Lowercase hex encoding/decoding (encoding/hex).
   --------------------------------------------------------------------- -/

def hexDigitChar (n : Nat) : Nat := if n < 10 then 48 + n else 87 + n

def hexEncode : Str → Str
  | [] => []
  | b :: rest => hexDigitChar (b / 16) :: hexDigitChar (b % 16) :: hexEncode rest

def hexVal (c : Nat) : Option Nat :=
  if 48 ≤ c ∧ c ≤ 57 then some (c - 48)
  else if 97 ≤ c ∧ c ≤ 102 then some (c - 87)
  else if 65 ≤ c ∧ c ≤ 70 then some (c - 55)
  else none

def hexDecode : Str → Option Str
  | [] => some []
  | [_] => none
  | a :: b :: rest =>
      match hexVal a, hexVal b, hexDecode rest with
      | some x, some y, some r => some ((16 * x + y) :: r)
      | _, _, _ => none

/- ---------------------------------------------------------------------
   Signed token codec (package qrcode, src/unnamed/part_002).
   --------------------------------------------------------------------- -/

/-- Model of `const separator = "."` — the byte 46. -/
def separator : Nat := 46

/-- The literal "default-secret" substituted for an empty secret. -/
def defaultSecret : Str := chars "default-secret"

/-- Model of `strings.LastIndex(s, ".")` for a one-byte needle: position of the last
occurrence, `none` when absent (Go returns -1). -/
def lastIndexOfByte (b : Nat) : Str → Option Nat
  | [] => none
  | c :: rest =>
      match lastIndexOfByte b rest with
      | some i => some (i + 1)
      | none => if c = b then some 0 else none

/-- Split at the first occurrence of byte `b`: `some (before, after)`, or
`none` when `b` does not occur. -/
def splitFirstByte (b : Nat) : Str → Option (Str × Str)
  | [] => none
  | c :: rest =>
      if c = b then some ([], rest)
      else (splitFirstByte b rest).map (fun p => (c :: p.1, p.2))

/-- Model of `strings.SplitN(s, sep, 3)` for a one-byte separator. -/
def splitN3 (b : Nat) (s : Str) : List Str :=
  match splitFirstByte b s with
  | none => [s]
  | some (a, rest) =>
      match splitFirstByte b rest with
      | none => [a, rest]
      | some (a2, rest2) => [a, a2, rest2]

/-- Model of `GenerateSignedPayload`: ticketID + "." + hex(HMAC-SHA256(ticketID, secret)),
with an empty secret replaced by "default-secret". -/
def GenerateSignedPayload (ticketID secret : Str) : Str :=
  let secret := if secret = [] then defaultSecret else secret
  ticketID ++ separator :: hexEncode (hmacSha256 secret ticketID)

/-- Model of `VerifySignedPayload`: split on the last ".", decode the hex signature,
recompute the MAC over the prefix and compare; ("", false) on any structural
malformation. -/
def VerifySignedPayload (payload secret : Str) : Str × Bool :=
  match lastIndexOfByte separator payload with
  | none => ([], false)
  | some idx =>
      if idx = 0 ∨ idx ≥ payload.length - 1 then ([], false)
      else
        let ticketID := payload.take idx
        let sigHex := payload.drop (idx + 1)
        match hexDecode sigHex with
        | none => ([], false)
        | some sig =>
            if sig.length ≠ 32 then ([], false)
            else
              let secret := if secret = [] then defaultSecret else secret
              (ticketID, decide (sig = hmacSha256 secret ticketID))

/-- Model of `GenerateSignedPayloadV2`: ticketID:chargeID:eventID + "." + hex(HMAC). -/
def GenerateSignedPayloadV2 (ticketID chargeID eventID secret : Str) : Str :=
  let secret := if secret = [] then defaultSecret else secret
  let data := ticketID ++ 58 :: (chargeID ++ 58 :: eventID)
  data ++ separator :: hexEncode (hmacSha256 secret data)

/-- Model of `VerifySignedPayloadV2`: verify the MAC over the prefix, then split it on
":" into exactly three fields. -/
def VerifySignedPayloadV2 (payload secret : Str) : Str × Str × Str × Bool :=
  match lastIndexOfByte separator payload with
  | none => ([], [], [], false)
  | some idx =>
      if idx = 0 ∨ idx ≥ payload.length - 1 then ([], [], [], false)
      else
        let data := payload.take idx
        let sigHex := payload.drop (idx + 1)
        match hexDecode sigHex with
        | none => ([], [], [], false)
        | some sig =>
            if sig.length ≠ 32 then ([], [], [], false)
            else
              let secret := if secret = [] then defaultSecret else secret
              if sig = hmacSha256 secret data then
                match splitN3 58 data with
                | [t, c, e] => (t, c, e, true)
                | _ => ([], [], [], false)
              else ([], [], [], false)

/- ---------------------------------------------------------------------
   Stripe webhook signature verification
   (src/api/internal/stripe/webhook.go, VerifyWebhookSignature).
   The JSON body parse (json.Unmarshal into WebhookEvent) is modelled as an
   oracle parameter `parseEvent`; every other step is embedded directly.
   --------------------------------------------------------------------- -/

/-- Projections of the event JSON actually read by the handlers:
`data["object"]["id"]` and `data["object"]["metadata"]["order_id"]`, with ""
standing for a missing or mistyped entry (the Go two-valued type assertion). -/
structure EventData where
  objectID : Str
  objectMetadataOrderID : Str
deriving DecidableEq

/-- Parsed Stripe webhook event (handler.go `WebhookEvent`); `data = none`
models a nil `Data` map or a missing/mistyped `data.object`. -/
structure WebhookEvent where
  id : Str
  type : Str
  data : Option EventData
deriving DecidableEq

/-- ASCII whitespace trim (strings.TrimSpace on the ASCII headers in scope). -/
def isSpaceByte (c : Nat) : Bool := c = 32 || (9 ≤ c && c ≤ 13)

def trimSpace (s : Str) : Str :=
  ((s.dropWhile isSpaceByte).reverse.dropWhile isSpaceByte).reverse

/-- Model of `strings.Split(s, ",")` for the one-byte comma separator; always returns
at least one (possibly empty) part. -/
def splitOnByte (b : Nat) : Str → List Str
  | [] => [[]]
  | c :: rest =>
      if c = b then [] :: splitOnByte b rest
      else
        match splitOnByte b rest with
        | p :: ps => (c :: p) :: ps
        | [] => [[c]]

/-- Model of `strings.SplitN(part, "=", 2)`. -/
def splitNEq2 (s : Str) : List Str :=
  match splitFirstByte 61 s with
  | none => [s]
  | some (a, b) => [a, b]

/-- The header-parsing loop of VerifyWebhookSignature: the last `t=` value and
all `v1=` values, in order. -/
def parseSigHeader (hdr : Str) : Str × List Str :=
  (splitOnByte 44 hdr).foldl
    (fun acc part =>
      match splitNEq2 (trimSpace part) with
      | [k, v] =>
          if k = chars "t" then (v, acc.2)
          else if k = chars "v1" then (acc.1, acc.2 ++ [v])
          else acc
      | _ => acc)
    ([], [])

/-- Digit-string value, `none` unless nonempty and all ASCII digits. -/
def digitsVal (s : Str) : Option Nat :=
  if s = [] then none
  else s.foldl
    (fun acc c => acc.bind (fun n => if 48 ≤ c ∧ c ≤ 57 then some (n * 10 + (c - 48)) else none))
    (some 0)

/-- Model of `strconv.ParseInt(s, 10, 64)`: optional sign, decimal digits, int64 range. -/
def parseInt64 (s : Str) : Option Int :=
  match s with
  | 43 :: rest => (digitsVal rest).bind (fun n => if n ≤ 9223372036854775807 then some (n : Int) else none)
  | 45 :: rest => (digitsVal rest).bind (fun n => if n ≤ 9223372036854775808 then some (-(n : Int)) else none)
  | _ => (digitsVal s).bind (fun n => if n ≤ 9223372036854775807 then some (n : Int) else none)

/-- Model of `VerifyWebhookSignature(payload, sigHeader)`: reject when the webhook
secret is unconfigured; parse the header for `t` and `v1` entries; enforce the
300-second freshness window around `now` (`time.Now().Unix()`); compare each
candidate v1 against the lowercase-hex HMAC-SHA256 of "timestamp.payload";
finally parse the body through the `parseEvent` oracle. -/
def VerifyWebhookSignature (secret : Str) (now : Int)
    (parseEvent : Str → Option WebhookEvent) (payload sigHeader : Str) : Option WebhookEvent :=
  if secret = [] then none
  else
    let timestamp := (parseSigHeader sigHeader).1
    let signatures := (parseSigHeader sigHeader).2
    if timestamp = [] ∨ signatures = [] then none
    else
      match parseInt64 timestamp with
      | none => none
      | some ts =>
          if (now - ts).natAbs > 300 then none
          else
            let expectedSig := hexEncode (hmacSha256 secret (timestamp ++ separator :: payload))
            if signatures.any (fun sig => sig = expectedSig) then parseEvent payload
            else none

/- ---------------------------------------------------------------------
   Relational state and repository operations
   (src/unnamed/part_007, src/api/internal/repository/ticket.go,
    src/api/internal/repository/stripe.go).
   Monetary float columns (orders.total, order_items.unit_price) are omitted:
   no claim mentions them. Row ids are the SQL primary keys.
   --------------------------------------------------------------------- -/

structure OrderRow where
  id : Str
  userID : Str
  status : Str
  stripePaymentIntentID : Option Str
deriving DecidableEq

structure OrderItemRow where
  id : Str
  orderID : Str
  eventDateID : Str
  ticketTypeID : Str
  quantity : Nat
deriving DecidableEq

structure LotRow where
  id : Str
  availableQuantity : Int
  totalQuantity : Int
deriving DecidableEq

structure TicketTypeRow where
  id : Str
  lotID : Str
  soldQuantity : Int
deriving DecidableEq

structure TicketRow where
  id : Str
  code : Str
  qrCode : Str
  orderID : Str
  orderItemID : Str
  userID : Str
  eventID : Str
  eventDateID : Str
  ticketTypeID : Str
  used : Nat
  usedAt : Option Str
deriving DecidableEq

structure EventDateRow where
  id : Str
  eventID : Str
deriving DecidableEq

structure EventRow where
  id : Str
  producerID : Str
deriving DecidableEq

structure WebhookEventRow where
  id : Str
  stripeEventID : Str
  eventType : Str
  processed : Nat
deriving DecidableEq

structure ValidationRow where
  id : Str
  ticketID : Str
  eventID : Str
  producerID : Str
deriving DecidableEq

structure DBState where
  orders : List OrderRow
  orderItems : List OrderItemRow
  lots : List LotRow
  ticketTypes : List TicketTypeRow
  tickets : List TicketRow
  eventDates : List EventDateRow
  events : List EventRow
  webhookEvents : List WebhookEventRow
  ticketValidations : List ValidationRow
deriving DecidableEq

/-- Model of `SELECT user_id, status, total FROM orders WHERE id = ?`. -/
def OrderByID (st : DBState) (id : Str) : Option OrderRow :=
  st.orders.find? (fun o => o.id = id)

/-- Model of `UPDATE orders SET status = PAID WHERE id = ? AND status = PENDING`. -/
def ConfirmOrder (st : DBState) (orderID : Str) : DBState :=
  { st with orders := st.orders.map (fun o =>
      if o.id = orderID ∧ o.status = chars "PENDING" then { o with status := chars "PAID" } else o) }

/-- Model of `SELECT ... FROM order_items WHERE order_id = ?`. -/
def OrderItemsByOrderID (st : DBState) (orderID : Str) : List OrderItemRow :=
  st.orderItems.filter (fun i => i.orderID = orderID)

/-- Model of `INSERT INTO tickets (...) VALUES (..., 0)` with a caller-supplied id;
`none` models the INSERT failing on a duplicate primary key. -/
def CreateTicketWithID (st : DBState)
    (id code qrCode orderID orderItemID userID eventID eventDateID ticketTypeID : Str) :
    Option DBState :=
  if st.tickets.any (fun t => t.id = id) then none
  else some { st with tickets := st.tickets ++
    [{ id := id, code := code, qrCode := qrCode, orderID := orderID,
       orderItemID := orderItemID, userID := userID, eventID := eventID,
       eventDateID := eventDateID, ticketTypeID := ticketTypeID,
       used := 0, usedAt := none }] }

/-- Model of `UPDATE ticket_types SET sold_quantity = sold_quantity + ? WHERE id = ?`. -/
def IncrementTicketTypeSold (st : DBState) (ticketTypeID : Str) (n : Int) : DBState :=
  { st with ticketTypes := st.ticketTypes.map (fun tt =>
      if tt.id = ticketTypeID then { tt with soldQuantity := tt.soldQuantity + n } else tt) }

/-- Model of `UPDATE lots SET available_quantity = available_quantity - ?
     WHERE id = ? AND available_quantity >= ?`. -/
def DecrementLotAvailable (st : DBState) (lotID : Str) (n : Int) : DBState :=
  { st with lots := st.lots.map (fun l =>
      if l.id = lotID ∧ n ≤ l.availableQuantity then
        { l with availableQuantity := l.availableQuantity - n } else l) }

/-- Model of `SELECT lot_id FROM ticket_types WHERE id = ?`. -/
def LotIDByTicketTypeID (st : DBState) (ticketTypeID : Str) : Option Str :=
  (st.ticketTypes.find? (fun tt => tt.id = ticketTypeID)).map (fun tt => tt.lotID)

/-- Model of `UPDATE tickets SET used = 1, used_at = datetime(now) WHERE id = ?`. -/
def MarkTicketUsed (st : DBState) (now id : Str) : DBState :=
  { st with tickets := st.tickets.map (fun t =>
      if t.id = id then { t with used := 1, usedAt := some now } else t) }

/-- Model of `UPDATE tickets SET used = 1, used_at = datetime(now)
     WHERE id = ? AND used = 0`, returning `RowsAffected() == 1`. -/
def MarkTicketUsedIfNotUsed (st : DBState) (now id : Str) : Bool × DBState :=
  let affected := (st.tickets.filter (fun t => t.id = id ∧ t.used = 0)).length
  (affected = 1,
   { st with tickets := st.tickets.map (fun t =>
       if t.id = id ∧ t.used = 0 then { t with used := 1, usedAt := some now } else t) })

/-- Model of `INSERT INTO ticket_validations (...)`. -/
def InsertTicketValidation (st : DBState) (rowID ticketID eventID producerID : Str) : DBState :=
  { st with ticketValidations := st.ticketValidations ++
      [{ id := rowID, ticketID := ticketID, eventID := eventID, producerID := producerID }] }

/-- Model of `SELECT COUNT(*) FROM stripe_webhook_events WHERE stripe_event_id = ?` > 0. -/
def WebhookEventExists (st : DBState) (stripeEventID : Str) : Bool :=
  st.webhookEvents.any (fun w => w.stripeEventID = stripeEventID)

/-- Model of `INSERT OR IGNORE INTO stripe_webhook_events (...)`: a duplicate external
id is silently ignored (UNIQUE stripe_event_id). -/
def InsertWebhookEvent (st : DBState) (rowID stripeEventID eventType : Str) : DBState :=
  if WebhookEventExists st stripeEventID then st
  else { st with webhookEvents := st.webhookEvents ++
      [{ id := rowID, stripeEventID := stripeEventID, eventType := eventType, processed := 0 }] }

/-- Model of `UPDATE stripe_webhook_events SET processed = 1 WHERE stripe_event_id = ?`. -/
def MarkWebhookEventProcessed (st : DBState) (stripeEventID : Str) : DBState :=
  { st with webhookEvents := st.webhookEvents.map (fun w =>
      if w.stripeEventID = stripeEventID then { w with processed := 1 } else w) }

/-- Model of `UPDATE orders SET stripe_payment_intent_id = ? WHERE id = ?`. -/
def SetOrderStripePaymentIntentID (st : DBState) (orderID paymentIntentID : Str) : DBState :=
  { st with orders := st.orders.map (fun o =>
      if o.id = orderID then { o with stripePaymentIntentID := some paymentIntentID } else o) }

/-- Model of `SELECT ... FROM event_dates WHERE id = ?` (repository/event.go). -/
def EventDateByID (st : DBState) (id : Str) : Option EventDateRow :=
  st.eventDates.find? (fun d => d.id = id)

/-- Model of `SELECT ... FROM events WHERE id = ?` (repository/event.go). -/
def EventByID (st : DBState) (id : Str) : Option EventRow :=
  st.events.find? (fun e => e.id = id)

/- ---------------------------------------------------------------------
   Settlement pipeline (src/api/internal/stripe/handler.go and the variant
   in src/unnamed/part_009).
   External effects are supplied through an environment: the Stripe fetches
   (RetrieveCheckoutSession / RetrievePaymentIntent), uuid.New / ticket-code
   generation as streams indexed by how many units have been minted in this
   run, and an injected infrastructure failure for the ledger INSERT whose
   error the handler discards.
   --------------------------------------------------------------------- -/

/-- The projections of a retrieved Checkout Session / PaymentIntent that the
handlers read: `metadata["order_id"]` and `payment_intent` ("" when absent). -/
structure SessionInfo where
  metadataOrderID : Str
  paymentIntent : Str
deriving DecidableEq

structure HandlerEnv where
  jwtSecret : Str
  webhookSecret : Str
  now : Int
  parseEvent : Str → Option WebhookEvent
  retrieveSession : Str → Option SessionInfo
  retrievePaymentIntent : Str → Option SessionInfo
  freshTicketID : Nat → Str
  freshTicketCode : Nat → Str
  freshWebhookRowID : Str
  insertWebhookEventFails : Bool

/-- One iteration of the per-unit loop: mint id and code, build the V2 signed
QR payload, insert the ticket; only if the INSERT succeeded, increment the
sold counter of the tier, resolve the lot and attempt the guarded decrement —
whose result is not inspected. -/
def createTicketUnit (env : HandlerEnv) (st : DBState) (orderID orderUserID txnID : Str)
    (item : OrderItemRow) (ev : EventRow) (k : Nat) : DBState :=
  let ticketID := env.freshTicketID k
  let code := env.freshTicketCode k
  let qrPayload := GenerateSignedPayloadV2 ticketID txnID ev.id env.jwtSecret
  match CreateTicketWithID st ticketID code qrPayload orderID item.id orderUserID
      ev.id item.eventDateID item.ticketTypeID with
  | none => st
  | some st2 =>
      let st3 := IncrementTicketTypeSold st2 item.ticketTypeID 1
      let lotID := (LotIDByTicketTypeID st3 item.ticketTypeID).getD []
      DecrementLotAvailable st3 lotID 1

/-- Model of `for i := 0; i < item.Quantity; i++`; `k` counts units minted so far. -/
def createTicketsForItem (env : HandlerEnv) (st : DBState) (orderID orderUserID txnID : Str)
    (item : OrderItemRow) (ev : EventRow) (k : Nat) : Nat → DBState × Nat
  | 0 => (st, k)
  | n + 1 =>
      let st2 := createTicketUnit env st orderID orderUserID txnID item ev k
      createTicketsForItem env st2 orderID orderUserID txnID item ev (k + 1) n

/-- Model of `for _, item := range items`: resolve the event date and event (skipping
the item when either is missing) and mint each unit. -/
def createTicketsForOrder (env : HandlerEnv) (st : DBState) (orderID orderUserID txnID : Str) :
    List OrderItemRow → Nat → DBState
  | [], _ => st
  | item :: rest, k =>
      match EventDateByID st item.eventDateID with
      | none => createTicketsForOrder env st orderID orderUserID txnID rest k
      | some evDate =>
          match EventByID st evDate.eventID with
          | none => createTicketsForOrder env st orderID orderUserID txnID rest k
          | some ev =>
              let r := createTicketsForItem env st orderID orderUserID txnID item ev k item.quantity
              createTicketsForOrder env r.1 orderID orderUserID txnID rest r.2

/-- The payment-intent write preceding the status re-check in
handleCheckoutCompleted (`if paymentIntentID != ""`). -/
def settleMid (st : DBState) (orderID paymentIntentID : Str) : DBState :=
  if paymentIntentID = [] then st else SetOrderStripePaymentIntentID st orderID paymentIntentID

/-- Model of `handleCheckoutCompleted` (handler.go): fetch the full session, resolve
the order from metadata, save the payment intent, re-check PENDING, mint
tickets per unit, then confirm the order. -/
def handleCheckoutCompleted (env : HandlerEnv) (st : DBState) (event : WebhookEvent) : DBState :=
  match event.data with
  | none => st
  | some d =>
      if d.objectID = [] then st
      else
        match env.retrieveSession d.objectID with
        | none => st
        | some session =>
            if session.metadataOrderID = [] then st
            else
              let orderID := session.metadataOrderID
              let piID := session.paymentIntent
              let st1 := settleMid st orderID piID
              match OrderByID st1 orderID with
              | none => st1
              | some o =>
                  if o.userID = [] then st1
                  else if o.status ≠ chars "PENDING" then st1
                  else
                    let st2 := createTicketsForOrder env st1 orderID o.userID piID
                      (OrderItemsByOrderID st1 orderID) 0
                    ConfirmOrder st2 orderID

/-- Model of `handlePaymentIntentSucceeded` (src/unnamed/part_009): like the above but
keyed on the PaymentIntent; when the Stripe fetch fails it falls back to the
object carried by the event itself, and the payment-intent id is saved unconditionally. -/
def handlePaymentIntentSucceeded (env : HandlerEnv) (st : DBState) (event : WebhookEvent) : DBState :=
  match event.data with
  | none => st
  | some d =>
      if d.objectID = [] then st
      else
        let piID := d.objectID
        let pi : SessionInfo :=
          match env.retrievePaymentIntent piID with
          | some info => info
          | none => { metadataOrderID := d.objectMetadataOrderID, paymentIntent := piID }
        if pi.metadataOrderID = [] then st
        else
          let orderID := pi.metadataOrderID
          let st1 := SetOrderStripePaymentIntentID st orderID piID
          match OrderByID st1 orderID with
          | none => st1
          | some o =>
              if o.userID = [] then st1
              else if o.status ≠ chars "PENDING" then st1
              else
                let st2 := createTicketsForOrder env st1 orderID o.userID piID
                  (OrderItemsByOrderID st1 orderID) 0
                ConfirmOrder st2 orderID

/-- Model of `HandleWebhook` (handler.go): missing signature → 400; failed
verification → 400; already-seen external id → 200 with no further work;
otherwise log the event (INSERT error discarded), route by type
(`payment_intent.succeeded` is log-only in this file), mark processed, 200.
The method check and the body-read error branch sit outside the model. -/
def HandleWebhook (env : HandlerEnv) (st : DBState) (body sigHeader : Str) : Nat × DBState :=
  if sigHeader = [] then (400, st)
  else
    match VerifyWebhookSignature env.webhookSecret env.now env.parseEvent body sigHeader with
    | none => (400, st)
    | some event =>
        if WebhookEventExists st event.id then (200, st)
        else
          let st1 :=
            if env.insertWebhookEventFails then st
            else InsertWebhookEvent st env.freshWebhookRowID event.id event.type
          let st2 :=
            if event.type = chars "checkout.session.completed" then
              handleCheckoutCompleted env st1 event
            else st1
          (200, MarkWebhookEventProcessed st2 event.id)

/- ---------------------------------------------------------------------
   Concrete fixtures used by witnesses and counterexamples.
   --------------------------------------------------------------------- -/

/-- Order O1 (PENDING) with one item of two units of tier T1, whose lot L1
has 1 of 1 remaining. -/
def twoUnitSt : DBState :=
  { orders := [{ id := chars "O1", userID := chars "U1", status := chars "PENDING",
                 stripePaymentIntentID := none }],
    orderItems := [{ id := chars "I1", orderID := chars "O1", eventDateID := chars "D1",
                     ticketTypeID := chars "T1", quantity := 2 }],
    lots := [{ id := chars "L1", availableQuantity := 1, totalQuantity := 1 }],
    ticketTypes := [{ id := chars "T1", lotID := chars "L1", soldQuantity := 0 }],
    tickets := [],
    eventDates := [{ id := chars "D1", eventID := chars "E1" }],
    events := [{ id := chars "E1", producerID := chars "P1" }],
    webhookEvents := [],
    ticketValidations := [] }

def twoUnitEnv : HandlerEnv :=
  { jwtSecret := chars "s",
    webhookSecret := chars "whsec",
    now := 1000,
    parseEvent := fun _ => none,
    retrieveSession := fun sid =>
      if sid = chars "cs1" then
        some { metadataOrderID := chars "O1", paymentIntent := chars "pi1" }
      else none,
    retrievePaymentIntent := fun _ => none,
    freshTicketID := fun k => chars "tk" ++ [48 + k],
    freshTicketCode := fun k => chars "c" ++ [48 + k],
    freshWebhookRowID := chars "row1",
    insertWebhookEventFails := false }

def twoUnitEvent : WebhookEvent :=
  { id := chars "evt1", type := chars "checkout.session.completed",
    data := some { objectID := chars "cs1", objectMetadataOrderID := [] } }

/-- Order O1 already PAID, with no stored payment intent. -/
def paidSt : DBState :=
  { orders := [{ id := chars "O1", userID := chars "U1", status := chars "PAID",
                 stripePaymentIntentID := none }],
    orderItems := [], lots := [], ticketTypes := [], tickets := [],
    eventDates := [], events := [], webhookEvents := [], ticketValidations := [] }

/-- Completely empty database. -/
def emptySt : DBState :=
  { orders := [], orderItems := [], lots := [], ticketTypes := [], tickets := [],
    eventDates := [], events := [], webhookEvents := [], ticketValidations := [] }

/-- A well-formed Stripe-Signature header for `secret`, `ts` and `body`:
`t=<ts>,v1=<hex hmac of "<ts>.<body>">`. -/
def sigHdrFor (secret ts body : Str) : Str :=
  chars "t=" ++ ts ++ chars ",v1=" ++ hexEncode (hmacSha256 secret (ts ++ separator :: body))

/-- Fixture webhook body (its JSON content is irrelevant to the handler once
parsed, so a one-byte stand-in suffices for the parse oracle). -/
def wkBody : Str := chars "x"

/-- Fixture event of a type the handler does not route anywhere. -/
def wkEvent : WebhookEvent :=
  { id := chars "evt4", type := chars "other", data := none }

def wkParse : Str → Option WebhookEvent :=
  fun b => if b = wkBody then some wkEvent else none

def wkEnv : HandlerEnv :=
  { jwtSecret := chars "s",
    webhookSecret := chars "whsec",
    now := 1000,
    parseEvent := wkParse,
    retrieveSession := fun _ => none,
    retrievePaymentIntent := fun _ => none,
    freshTicketID := fun k => chars "tk" ++ [48 + k],
    freshTicketCode := fun k => chars "c" ++ [48 + k],
    freshWebhookRowID := chars "row1",
    insertWebhookEventFails := false }

/-- The same environment with the ledger INSERT failing. -/
def wkEnvFail : HandlerEnv := { wkEnv with insertWebhookEventFails := true }

/-- A ledger already holding the external id of wkEvent. -/
def seenSt : DBState :=
  { emptySt with webhookEvents :=
      [{ id := chars "w0", stripeEventID := chars "evt4", eventType := chars "other",
         processed := 1 }] }

/- ---------------------------------------------------------------------
   Properties used in the claim statements.
   --------------------------------------------------------------------- -/

/-- The lot invariant: 0 ≤ available_quantity ≤ total_quantity on every row. -/
def LotsInv (st : DBState) : Prop :=
  ∀ l ∈ st.lots, 0 ≤ l.availableQuantity ∧ l.availableQuantity ≤ l.totalQuantity

instance (st : DBState) : Decidable (LotsInv st) := by
  unfold LotsInv
  infer_instance

/-- Row-for-row evolution of the orders table in which a status may change
only from PENDING to PAID. -/
def ordersStatusEvolution (a b : DBState) : Prop :=
  b.orders.length = a.orders.length ∧
  ∀ k (ha : k < a.orders.length) (hb : k < b.orders.length),
    (b.orders[k]).id = (a.orders[k]).id ∧
    ((b.orders[k]).status ≠ (a.orders[k]).status →
      (a.orders[k]).status = chars "PENDING" ∧ (b.orders[k]).status = chars "PAID")

/-- Every ticket id that is used (used = 1) in `a` is still present and used
in `b`: the one-way latch is never reset. -/
def preservesUsedLatch (a b : DBState) : Prop :=
  ∀ tid, (∃ t ∈ a.tickets, t.id = tid ∧ t.used = 1) →
    ∃ t ∈ b.tickets, t.id = tid ∧ t.used = 1

/-- Frame of the per-unit minting loop: it never touches orders, the webhook
ledger, order items, event data or validations; it only appends tickets; and
it preserves the lot invariant. -/
def settlementFrame (a b : DBState) : Prop :=
  b.orders = a.orders ∧ b.webhookEvents = a.webhookEvents ∧ b.orderItems = a.orderItems ∧
  b.eventDates = a.eventDates ∧ b.events = a.events ∧
  b.ticketValidations = a.ticketValidations ∧
  (∃ ext, b.tickets = a.tickets ++ ext) ∧ (LotsInv a → LotsInv b)

/-- An unused ticket row tk1. -/
def oneTicketRow : TicketRow :=
  { id := chars "tk1", code := chars "c1", qrCode := chars "q1",
    orderID := chars "O1", orderItemID := chars "I1", userID := chars "U1",
    eventID := chars "E1", eventDateID := chars "D1", ticketTypeID := chars "T1",
    used := 0, usedAt := none }

/-- A database holding exactly one unused ticket tk1. -/
def oneTicketSt : DBState := { emptySt with tickets := [oneTicketRow] }

/-- A valid header for wkBody under the configured secret at time 1000. -/
def wkHdr : Str := sigHdrFor (chars "whsec") (chars "1000") wkBody

/-- A header that is valid for wkBody under an EMPTY secret at time 1000. -/
def c9Hdr : Str := sigHdrFor [] (chars "1000") wkBody

/- ---------------------------------------------------------------------
   Helper lemmas: hex, SHA-256 shape, token codec round trips.
   --------------------------------------------------------------------- -/

theorem hexEncode_length (l : Str) : (hexEncode l).length = 2 * l.length := by
  induction l with
  | nil => rfl
  | cons b rest ih => simp [hexEncode, ih]; omega

theorem sep_not_mem_hexEncode (l : Str) : separator ∉ hexEncode l := by
  induction l with
  | nil => simp [hexEncode]
  | cons b rest ih =>
      simp only [hexEncode, List.mem_cons, separator] at *
      intro h
      rcases h with h | h | h
      · unfold hexDigitChar at h; split at h <;> omega
      · unfold hexDigitChar at h; split at h <;> omega
      · exact ih h

theorem colon_not_mem_hexEncode (l : Str) : 58 ∉ hexEncode l := by
  induction l with
  | nil => simp [hexEncode]
  | cons b rest ih =>
      simp only [hexEncode, List.mem_cons] at *
      intro h
      rcases h with h | h | h
      · unfold hexDigitChar at h; split at h <;> omega
      · unfold hexDigitChar at h; split at h <;> omega
      · exact ih h

theorem hexVal_hexDigitChar (n : Nat) (h : n < 16) : hexVal (hexDigitChar n) = some n := by
  by_cases h10 : n < 10
  · have e : hexDigitChar n = 48 + n := by unfold hexDigitChar; rw [if_pos h10]
    rw [e]; unfold hexVal
    rw [if_pos (by omega)]
    congr 1; omega
  · have e : hexDigitChar n = 87 + n := by unfold hexDigitChar; rw [if_neg h10]
    rw [e]; unfold hexVal
    rw [if_neg (by omega), if_pos (by omega)]
    congr 1; omega

theorem hexDecode_hexEncode (l : Str) (h : ∀ b ∈ l, b < 256) :
    hexDecode (hexEncode l) = some l := by
  induction l with
  | nil => rfl
  | cons b rest ih =>
      have hb : b < 256 := h b (by simp)
      have h1 : hexVal (hexDigitChar (b / 16)) = some (b / 16) :=
        hexVal_hexDigitChar _ (by omega)
      have h2 : hexVal (hexDigitChar (b % 16)) = some (b % 16) :=
        hexVal_hexDigitChar _ (by omega)
      have h3 : hexDecode (hexEncode rest) = some rest := ih (fun x hx => h x (by simp [hx]))
      simp only [hexEncode, hexDecode, h1, h2, h3]
      congr 2
      omega

theorem wordBytes_length (w : Nat) : (wordBytes w).length = 4 := rfl

theorem wordBytes_lt256 (w : Nat) : ∀ b ∈ wordBytes w, b < 256 := by
  intro b hb
  simp only [wordBytes, List.mem_cons, List.not_mem_nil, or_false] at hb
  rcases hb with h | h | h | h <;> (subst h; exact Nat.mod_lt _ (by omega))

theorem sha256_length (m : Str) : (sha256 m).length = 32 := by
  unfold sha256
  simp [wordBytes]

theorem sha256_lt256 (m : Str) : ∀ b ∈ sha256 m, b < 256 := by
  intro b hb
  unfold sha256 at hb
  simp only [List.mem_append] at hb
  rcases hb with ((((((h | h) | h) | h) | h) | h) | h) | h <;>
    exact wordBytes_lt256 _ b h

theorem hmacSha256_length (key msg : Str) : (hmacSha256 key msg).length = 32 :=
  sha256_length _

theorem hmacSha256_lt256 (key msg : Str) : ∀ b ∈ hmacSha256 key msg, b < 256 :=
  sha256_lt256 _

theorem lastIndexOfByte_append_cons (b : Nat) (pre suf : Str) (h : b ∉ suf) :
    lastIndexOfByte b (pre ++ b :: suf) = some pre.length := by
  induction pre with
  | nil =>
      have hn : lastIndexOfByte b suf = none := by
        induction suf with
        | nil => rfl
        | cons c rest ih =>
            simp only [List.mem_cons, not_or] at h
            simp [lastIndexOfByte, ih h.2, h.1, Ne.symm h.1]
      simp [lastIndexOfByte, hn]
  | cons c rest ih =>
      simp only [List.cons_append, lastIndexOfByte, List.append_eq, ih, List.length_cons]

theorem splitFirstByte_append (b : Nat) (pre rest : Str) (h : b ∉ pre) :
    splitFirstByte b (pre ++ b :: rest) = some (pre, rest) := by
  induction pre with
  | nil => simp [splitFirstByte]
  | cons c tl ih =>
      simp only [List.mem_cons, not_or] at h
      simp [splitFirstByte, Ne.symm h.1, h.1, ih h.2]

theorem splitN3_two_colons (t c e : Str) (ht : 58 ∉ t) (hc : 58 ∉ c) :
    splitN3 58 (t ++ 58 :: (c ++ 58 :: e)) = [t, c, e] := by
  simp [splitN3, splitFirstByte_append 58 t (c ++ 58 :: e) ht,
    splitFirstByte_append 58 c e hc]

theorem drop_append_cons (pre suf : Str) (x : Nat) :
    (pre ++ x :: suf).drop (pre.length + 1) = suf := by
  rw [show pre.length + 1 = (pre ++ [x]).length by simp,
      show pre ++ x :: suf = (pre ++ [x]) ++ suf by simp, List.drop_left]

theorem verify_generate_legacy (t s : Str) (ht : t ≠ []) :
    VerifySignedPayload (GenerateSignedPayload t s) s = (t, true) := by
  obtain ⟨s2, hs2⟩ : ∃ s2, (if s = [] then defaultSecret else s) = s2 := ⟨_, rfl⟩
  have hgen : GenerateSignedPayload t s = t ++ separator :: hexEncode (hmacSha256 s2 t) := by
    simp only [GenerateSignedPayload, hs2]
  have hsep : separator ∉ hexEncode (hmacSha256 s2 t) := sep_not_mem_hexEncode _
  have hlen : (hexEncode (hmacSha256 s2 t)).length = 64 := by
    rw [hexEncode_length, hmacSha256_length]
  have hne : ¬ (t.length = 0 ∨
      t.length ≥ (t ++ separator :: hexEncode (hmacSha256 s2 t)).length - 1) := by
    simp only [List.length_append, List.length_cons, hlen]
    have : t.length ≠ 0 := fun h0 => ht (List.eq_nil_of_length_eq_zero h0)
    omega
  rw [hgen]
  simp only [VerifySignedPayload, lastIndexOfByte_append_cons separator t _ hsep, hs2]
  rw [if_neg hne]
  simp only [List.take_left, drop_append_cons,
    hexDecode_hexEncode _ (hmacSha256_lt256 s2 t), hmacSha256_length]
  simp

theorem verifyV2_generateV2 (t c e s : Str) (ht : 58 ∉ t) (hc : 58 ∉ c) :
    VerifySignedPayloadV2 (GenerateSignedPayloadV2 t c e s) s = (t, c, e, true) := by
  obtain ⟨s2, hs2⟩ : ∃ s2, (if s = [] then defaultSecret else s) = s2 := ⟨_, rfl⟩
  obtain ⟨dt, hdt⟩ : ∃ dt, t ++ 58 :: (c ++ 58 :: e) = dt := ⟨_, rfl⟩
  have hgen : GenerateSignedPayloadV2 t c e s = dt ++ separator :: hexEncode (hmacSha256 s2 dt) := by
    simp only [GenerateSignedPayloadV2, hs2, hdt]
  have hsep : separator ∉ hexEncode (hmacSha256 s2 dt) := sep_not_mem_hexEncode _
  have hlen : (hexEncode (hmacSha256 s2 dt)).length = 64 := by
    rw [hexEncode_length, hmacSha256_length]
  have hdtlen : dt.length = t.length + c.length + e.length + 2 := by
    rw [← hdt]; simp; omega
  have hne : ¬ (dt.length = 0 ∨
      dt.length ≥ (dt ++ separator :: hexEncode (hmacSha256 s2 dt)).length - 1) := by
    simp only [List.length_append, List.length_cons, hlen]
    omega
  rw [hgen]
  simp only [VerifySignedPayloadV2, lastIndexOfByte_append_cons separator dt _ hsep, hs2]
  rw [if_neg hne]
  simp only [List.take_left, drop_append_cons,
    hexDecode_hexEncode _ (hmacSha256_lt256 s2 dt), hmacSha256_length]
  simp only [if_true, ← hdt, splitN3_two_colons t c e ht hc]
  simp

theorem defaultSecret_ne_nil : defaultSecret ≠ [] := by decide

theorem gen_legacy_empty_secret (t : Str) :
    GenerateSignedPayload t [] = GenerateSignedPayload t defaultSecret := by
  simp only [GenerateSignedPayload, if_pos rfl, if_neg defaultSecret_ne_nil, if_true]

theorem gen_v2_empty_secret (t c e : Str) :
    GenerateSignedPayloadV2 t c e [] = GenerateSignedPayloadV2 t c e defaultSecret := by
  simp only [GenerateSignedPayloadV2, if_pos rfl, if_neg defaultSecret_ne_nil, if_true]

theorem verify_legacy_empty_secret (p : Str) :
    VerifySignedPayload p [] = VerifySignedPayload p defaultSecret := by
  cases h : lastIndexOfByte separator p with
  | none => simp only [VerifySignedPayload, h]
  | some idx =>
      simp only [VerifySignedPayload, h]
      by_cases h2 : idx = 0 ∨ idx ≥ p.length - 1
      · rw [if_pos h2, if_pos h2]
      · rw [if_neg h2, if_neg h2]
        cases h3 : hexDecode (p.drop (idx + 1)) with
        | none => simp only [h3]
        | some sig =>
            simp only [h3]
            by_cases h4 : sig.length ≠ 32
            · rw [if_pos h4, if_pos h4]
            · rw [if_neg h4, if_neg h4]
              simp only [if_pos rfl, if_neg defaultSecret_ne_nil, if_true]

theorem verify_v2_empty_secret (p : Str) :
    VerifySignedPayloadV2 p [] = VerifySignedPayloadV2 p defaultSecret := by
  cases h : lastIndexOfByte separator p with
  | none => simp only [VerifySignedPayloadV2, h]
  | some idx =>
      simp only [VerifySignedPayloadV2, h]
      by_cases h2 : idx = 0 ∨ idx ≥ p.length - 1
      · rw [if_pos h2, if_pos h2]
      · rw [if_neg h2, if_neg h2]
        cases h3 : hexDecode (p.drop (idx + 1)) with
        | none => simp only [h3]
        | some sig =>
            simp only [h3]
            by_cases h4 : sig.length ≠ 32
            · rw [if_pos h4, if_pos h4]
            · rw [if_neg h4, if_neg h4]
              simp only [if_pos rfl, if_neg defaultSecret_ne_nil, if_true]

/- ---------------------------------------------------------------------
   Helper lemmas: repository operations.
   --------------------------------------------------------------------- -/

theorem map_id_of_eq {α : Type} (l : List α) (f : α → α) (h : ∀ a ∈ l, f a = a) :
    l.map f = l := by
  induction l with
  | nil => rfl
  | cons a tl ih => simp [h a (by simp), ih (fun x hx => h x (by simp [hx]))]

theorem map_eq_of_eq {α β : Type} (l : List α) (f g : α → β) (h : ∀ a ∈ l, f a = g a) :
    l.map f = l.map g := by
  induction l with
  | nil => rfl
  | cons a tl ih => simp [h a (by simp), ih (fun x hx => h x (by simp [hx]))]

theorem filter_unused_one (l : List TicketRow) (tid : Str)
    (hnd : (l.map TicketRow.id).Nodup)
    (t : TicketRow) (hmem : t ∈ l) (hid : t.id = tid) (hused : t.used = 0) :
    (l.filter (fun x => x.id = tid ∧ x.used = 0)).length = 1 := by
  induction l with
  | nil => cases hmem
  | cons a tl ih =>
      rw [List.map_cons, List.nodup_cons] at hnd
      rcases List.mem_cons.mp hmem with rfl | hmem2
      · rw [List.filter_cons_of_pos (by simp [hid, hused])]
        have hnil : tl.filter (fun x => x.id = tid ∧ x.used = 0) = [] := by
          apply List.filter_eq_nil_iff.mpr
          intro x hx
          simp only [decide_eq_true_eq, not_and]
          intro hxid
          exact absurd (hid ▸ hxid ▸ List.mem_map_of_mem TicketRow.id hx) hnd.1
        rw [hnil]
        rfl
      · have hpa : ¬ (a.id = tid ∧ a.used = 0) := by
          rintro ⟨haid, _⟩
          have : t.id ∈ tl.map TicketRow.id := List.mem_map_of_mem TicketRow.id hmem2
          rw [hid, ← haid] at this
          exact hnd.1 this
        rw [List.filter_cons_of_neg (by simpa using hpa)]
        exact ih hnd.2 hmem2

theorem markTicketUsedIfNotUsed_noop (st : DBState) (now tid : Str)
    (h : ∀ t ∈ st.tickets, t.id = tid → t.used ≠ 0) :
    MarkTicketUsedIfNotUsed st now tid = (false, st) := by
  unfold MarkTicketUsedIfNotUsed
  have hf : st.tickets.filter (fun x => x.id = tid ∧ x.used = 0) = [] := by
    apply List.filter_eq_nil_iff.mpr
    intro x hx
    simp only [decide_eq_true_eq, not_and]
    exact fun hxid => h x hx hxid
  have hm : st.tickets.map
      (fun t => if t.id = tid ∧ t.used = 0 then { t with used := 1, usedAt := some now } else t) =
      st.tickets := by
    apply map_id_of_eq
    intro x hx
    rw [if_neg]
    rintro ⟨h1, h2⟩
    exact h x hx h1 h2
  rw [hf, hm]
  rfl

theorem markTicketUsedIfNotUsed_success (st : DBState) (now tid : Str)
    (hnd : (st.tickets.map TicketRow.id).Nodup)
    (t : TicketRow) (hmem : t ∈ st.tickets) (hid : t.id = tid) (hused : t.used = 0) :
    (MarkTicketUsedIfNotUsed st now tid).1 = true := by
  show decide ((st.tickets.filter (fun x => x.id = tid ∧ x.used = 0)).length = 1) = true
  rw [filter_unused_one st.tickets tid hnd t hmem hid hused]
  rfl

theorem markTicketUsedIfNotUsed_rows_after (st : DBState) (now tid : Str) :
    ∀ t ∈ (MarkTicketUsedIfNotUsed st now tid).2.tickets, t.id = tid → t.used ≠ 0 := by
  intro t ht hid
  unfold MarkTicketUsedIfNotUsed at ht
  simp only [List.mem_map] at ht
  obtain ⟨t0, _, rfl⟩ := ht
  by_cases hc : t0.id = tid ∧ t0.used = 0
  · rw [if_pos hc]; simp
  · rw [if_neg hc] at hid ⊢
    intro h0
    exact hc ⟨hid, h0⟩

theorem markTicketUsedIfNotUsed_sets (st : DBState) (now tid : Str)
    (hall : ∀ t ∈ st.tickets, t.id = tid → t.used = 0) :
    ∀ t ∈ (MarkTicketUsedIfNotUsed st now tid).2.tickets, t.id = tid →
      t.used = 1 ∧ t.usedAt = some now := by
  intro t ht hid
  unfold MarkTicketUsedIfNotUsed at ht
  simp only [List.mem_map] at ht
  obtain ⟨t0, ht0, rfl⟩ := ht
  by_cases hc : t0.id = tid ∧ t0.used = 0
  · rw [if_pos hc]; simp
  · rw [if_neg hc] at hid ⊢
    exact absurd ⟨hid, hall t0 ht0 hid⟩ hc

theorem confirmOrder_noop (st : DBState) (oid : Str)
    (h : ∀ o ∈ st.orders, o.id = oid → o.status ≠ chars "PENDING") :
    ConfirmOrder st oid = st := by
  unfold ConfirmOrder
  rw [map_id_of_eq]
  intro o ho
  rw [if_neg]
  rintro ⟨h1, h2⟩
  exact h o ho h1 h2

theorem pending_ne_paid : chars "PENDING" ≠ chars "PAID" := by decide

theorem confirmOrder_idem (st : DBState) (oid : Str) :
    ConfirmOrder (ConfirmOrder st oid) oid = ConfirmOrder st oid := by
  unfold ConfirmOrder
  simp only [List.map_map]
  congr 1
  apply map_eq_of_eq
  intro o _
  by_cases hc : o.id = oid ∧ o.status = chars "PENDING"
  · simp only [Function.comp_apply, if_pos hc]
    rw [if_neg]
    rintro ⟨_, h2⟩
    exact pending_ne_paid h2.symm
  · simp only [Function.comp_apply, if_neg hc, if_neg hc]

/- ---------------------------------------------------------------------
   Helper lemmas: order-status evolution and settlement frame facts.
   --------------------------------------------------------------------- -/

theorem evol_refl (st : DBState) : ordersStatusEvolution st st := by
  refine ⟨rfl, ?_⟩
  intro k ha hb
  exact ⟨rfl, fun h => absurd rfl h⟩

theorem evol_trans {a b c : DBState} (h1 : ordersStatusEvolution a b)
    (h2 : ordersStatusEvolution b c) : ordersStatusEvolution a c := by
  obtain ⟨hl1, hp1⟩ := h1
  obtain ⟨hl2, hp2⟩ := h2
  refine ⟨hl2.trans hl1, ?_⟩
  intro k ha hc
  have hb : k < b.orders.length := by omega
  obtain ⟨hid1, hs1⟩ := hp1 k ha hb
  obtain ⟨hid2, hs2⟩ := hp2 k hb hc
  refine ⟨hid2.trans hid1, ?_⟩
  intro hne
  by_cases he : (b.orders[k]).status = (a.orders[k]).status
  · rw [← he] at hne ⊢
    exact hs2 hne
  · obtain ⟨hpend, hpaid⟩ := hs1 he
    refine ⟨hpend, ?_⟩
    by_cases he2 : (c.orders[k]).status = (b.orders[k]).status
    · rw [he2, hpaid]
    · exact (hs2 he2).2

theorem evol_orders_eq {a b : DBState} (h : b.orders = a.orders) :
    ordersStatusEvolution a b := by
  refine ⟨by rw [h], ?_⟩
  intro k ha hb
  have : b.orders[k] = a.orders[k] := by
    congr 1
  exact ⟨by rw [this], fun hne => absurd (by rw [this]) hne⟩

theorem evol_map (st : DBState) (f : OrderRow → OrderRow)
    (h : ∀ o, (f o).id = o.id ∧
      ((f o).status ≠ o.status → o.status = chars "PENDING" ∧ (f o).status = chars "PAID")) :
    ordersStatusEvolution st { st with orders := st.orders.map f } := by
  refine ⟨by simp, ?_⟩
  intro k ha hb
  have hg : (st.orders.map f)[k] = f (st.orders[k]) := by
    simp
  constructor
  · show ((st.orders.map f)[k]).id = _
    rw [hg]
    exact (h _).1
  · show ((st.orders.map f)[k]).status ≠ _ → _
    rw [hg]
    intro hne
    exact ⟨(h _).2 hne |>.1, (h _).2 hne |>.2⟩

theorem evol_setPI (st : DBState) (oid pi : Str) :
    ordersStatusEvolution st (SetOrderStripePaymentIntentID st oid pi) := by
  apply evol_map
  intro o
  by_cases hc : o.id = oid
  · simp [if_pos hc]
  · simp [if_neg hc]

theorem evol_settleMid (st : DBState) (oid pi : Str) :
    ordersStatusEvolution st (settleMid st oid pi) := by
  unfold settleMid
  split
  · exact evol_refl st
  · exact evol_setPI st oid pi

theorem evol_confirmOrder (st : DBState) (oid : Str) :
    ordersStatusEvolution st (ConfirmOrder st oid) := by
  apply evol_map
  intro o
  by_cases hc : o.id = oid ∧ o.status = chars "PENDING"
  · simp [if_pos hc, hc.1, hc.2]
  · simp [if_neg hc]

theorem frame_refl (st : DBState) : settlementFrame st st :=
  ⟨rfl, rfl, rfl, rfl, rfl, rfl, ⟨[], by simp⟩, fun h => h⟩

theorem frame_trans {a b c : DBState} (h1 : settlementFrame a b) (h2 : settlementFrame b c) :
    settlementFrame a c := by
  obtain ⟨o1, w1, i1, d1, e1, v1, ⟨x1, t1⟩, l1⟩ := h1
  obtain ⟨o2, w2, i2, d2, e2, v2, ⟨x2, t2⟩, l2⟩ := h2
  exact ⟨o2.trans o1, w2.trans w1, i2.trans i1, d2.trans d1, e2.trans e1, v2.trans v1,
    ⟨x1 ++ x2, by rw [t2, t1, List.append_assoc]⟩, fun h => l2 (l1 h)⟩

theorem decrement_lotsInv (st : DBState) (lotID : Str) (n : Int) (hn : 0 ≤ n)
    (h : LotsInv st) : LotsInv (DecrementLotAvailable st lotID n) := by
  intro l hl
  unfold DecrementLotAvailable at hl
  simp only [List.mem_map] at hl
  obtain ⟨l0, hl0, rfl⟩ := hl
  obtain ⟨h1, h2⟩ := h l0 hl0
  by_cases hc : l0.id = lotID ∧ n ≤ l0.availableQuantity
  · rw [if_pos hc]
    constructor
    · simp only []
      omega
    · simp only []
      omega
  · rw [if_neg hc]
    exact ⟨h1, h2⟩

theorem frame_decrement (st : DBState) (lotID : Str) :
    settlementFrame st (DecrementLotAvailable st lotID 1) :=
  ⟨rfl, rfl, rfl, rfl, rfl, rfl, ⟨[], by simp [DecrementLotAvailable]⟩,
   fun h => decrement_lotsInv st lotID 1 (by omega) h⟩

theorem frame_incSold (st : DBState) (ttid : Str) :
    settlementFrame st (IncrementTicketTypeSold st ttid 1) :=
  ⟨rfl, rfl, rfl, rfl, rfl, rfl, ⟨[], by simp [IncrementTicketTypeSold]⟩, fun h => h⟩

theorem createTicketWithID_some {st st' : DBState}
    {tid code qr oid itemID uid evid dateID ttid : Str}
    (h : CreateTicketWithID st tid code qr oid itemID uid evid dateID ttid = some st') :
    st' = { st with tickets := st.tickets ++
      [{ id := tid, code := code, qrCode := qr, orderID := oid, orderItemID := itemID,
         userID := uid, eventID := evid, eventDateID := dateID, ticketTypeID := ttid,
         used := 0, usedAt := none }] } := by
  unfold CreateTicketWithID at h
  split at h
  · cases h
  · exact (Option.some.inj h).symm

theorem frame_createTicketUnit (env : HandlerEnv) (st : DBState)
    (oid u txn : Str) (item : OrderItemRow) (ev : EventRow) (k : Nat) :
    settlementFrame st (createTicketUnit env st oid u txn item ev k) := by
  unfold createTicketUnit
  dsimp only []
  split
  · exact frame_refl st
  · next st2 hsome =>
      have h2 := createTicketWithID_some hsome
      have f1 : settlementFrame st st2 := by
        rw [h2]
        exact ⟨rfl, rfl, rfl, rfl, rfl, rfl, ⟨_, rfl⟩, fun h => h⟩
      exact frame_trans f1 (frame_trans (frame_incSold st2 _) (frame_decrement _ _))

theorem frame_createTicketsForItem (env : HandlerEnv)
    (oid u txn : Str) (item : OrderItemRow) (ev : EventRow) :
    ∀ (n : Nat) (st : DBState) (k : Nat),
      settlementFrame st (createTicketsForItem env st oid u txn item ev k n).1 := by
  intro n
  induction n with
  | zero => intro st k; exact frame_refl st
  | succ m ih =>
      intro st k
      exact frame_trans (frame_createTicketUnit env st oid u txn item ev k) (ih _ _)

theorem frame_createTicketsForOrder (env : HandlerEnv) (oid u txn : Str) :
    ∀ (items : List OrderItemRow) (st : DBState) (k : Nat),
      settlementFrame st (createTicketsForOrder env st oid u txn items k) := by
  intro items
  induction items with
  | nil => intro st k; exact frame_refl st
  | cons item rest ih =>
      intro st k
      unfold createTicketsForOrder
      split
      · exact ih st k
      · split
        · exact ih st k
        · exact frame_trans (frame_createTicketsForItem env oid u txn item _ item.quantity st k)
            (ih _ _)

theorem settleMid_webhookEvents (st : DBState) (oid pi : Str) :
    (settleMid st oid pi).webhookEvents = st.webhookEvents := by
  unfold settleMid; split <;> rfl

theorem settleMid_tickets (st : DBState) (oid pi : Str) :
    (settleMid st oid pi).tickets = st.tickets := by
  unfold settleMid; split <;> rfl

theorem settleMid_lots (st : DBState) (oid pi : Str) :
    (settleMid st oid pi).lots = st.lots := by
  unfold settleMid; split <;> rfl

theorem handleCheckoutCompleted_shape (env : HandlerEnv) (st : DBState) (ev : WebhookEvent) :
    handleCheckoutCompleted env st ev = st ∨
    (∃ oid pi, handleCheckoutCompleted env st ev = settleMid st oid pi) ∨
    (∃ oid pi u, handleCheckoutCompleted env st ev =
       ConfirmOrder (createTicketsForOrder env (settleMid st oid pi) oid u pi
         (OrderItemsByOrderID (settleMid st oid pi) oid) 0) oid) := by
  unfold handleCheckoutCompleted
  split
  · left; rfl
  · split
    · left; rfl
    · split
      · left; rfl
      · split
        · left; rfl
        · dsimp only []
          split
          · right; left; exact ⟨_, _, rfl⟩
          · split
            · right; left; exact ⟨_, _, rfl⟩
            · split
              · right; left; exact ⟨_, _, rfl⟩
              · right; right; exact ⟨_, _, _, rfl⟩

theorem handlePaymentIntentSucceeded_shape (env : HandlerEnv) (st : DBState) (ev : WebhookEvent) :
    handlePaymentIntentSucceeded env st ev = st ∨
    (∃ oid pi, handlePaymentIntentSucceeded env st ev = SetOrderStripePaymentIntentID st oid pi) ∨
    (∃ oid pi u, handlePaymentIntentSucceeded env st ev =
       ConfirmOrder (createTicketsForOrder env (SetOrderStripePaymentIntentID st oid pi) oid u pi
         (OrderItemsByOrderID (SetOrderStripePaymentIntentID st oid pi) oid) 0) oid) := by
  unfold handlePaymentIntentSucceeded
  split
  · left; rfl
  · split
    · left; rfl
    · dsimp only []
      split
      · left; rfl
      · split
        · right; left; exact ⟨_, _, rfl⟩
        · split
          · right; left; exact ⟨_, _, rfl⟩
          · split
            · right; left; exact ⟨_, _, rfl⟩
            · right; right; exact ⟨_, _, _, rfl⟩

theorem hcc_webhookEvents (env : HandlerEnv) (st : DBState) (ev : WebhookEvent) :
    (handleCheckoutCompleted env st ev).webhookEvents = st.webhookEvents := by
  rcases handleCheckoutCompleted_shape env st ev with h | ⟨oid, pi, h⟩ | ⟨oid, pi, u, h⟩
  · rw [h]
  · rw [h, settleMid_webhookEvents]
  · rw [h]
    show (createTicketsForOrder env (settleMid st oid pi) oid u pi _ 0).webhookEvents = _
    rw [(frame_createTicketsForOrder env oid u pi _ _ 0).2.1, settleMid_webhookEvents]

theorem hcc_lotsInv (env : HandlerEnv) (st : DBState) (ev : WebhookEvent)
    (h : LotsInv st) : LotsInv (handleCheckoutCompleted env st ev) := by
  rcases handleCheckoutCompleted_shape env st ev with he | ⟨oid, pi, he⟩ | ⟨oid, pi, u, he⟩
  · rw [he]; exact h
  · rw [he]
    intro l hl
    rw [settleMid_lots] at hl
    exact h l hl
  · rw [he]
    intro l hl
    have hmid : LotsInv (settleMid st oid pi) := by
      intro x hx
      rw [settleMid_lots] at hx
      exact h x hx
    have := (frame_createTicketsForOrder env oid u pi
      (OrderItemsByOrderID (settleMid st oid pi) oid) (settleMid st oid pi) 0).2.2.2.2.2.2.2 hmid
    exact this l hl

theorem hps_lotsInv (env : HandlerEnv) (st : DBState) (ev : WebhookEvent)
    (h : LotsInv st) : LotsInv (handlePaymentIntentSucceeded env st ev) := by
  rcases handlePaymentIntentSucceeded_shape env st ev with he | ⟨oid, pi, he⟩ | ⟨oid, pi, u, he⟩
  · rw [he]; exact h
  · rw [he]
    intro l hl
    exact h l hl
  · rw [he]
    intro l hl
    have hmid : LotsInv (SetOrderStripePaymentIntentID st oid pi) := fun x hx => h x hx
    have := (frame_createTicketsForOrder env oid u pi
      (OrderItemsByOrderID (SetOrderStripePaymentIntentID st oid pi) oid)
      (SetOrderStripePaymentIntentID st oid pi) 0).2.2.2.2.2.2.2 hmid
    exact this l hl

theorem hcc_evol (env : HandlerEnv) (st : DBState) (ev : WebhookEvent) :
    ordersStatusEvolution st (handleCheckoutCompleted env st ev) := by
  rcases handleCheckoutCompleted_shape env st ev with he | ⟨oid, pi, he⟩ | ⟨oid, pi, u, he⟩
  · rw [he]; exact evol_refl st
  · rw [he]; exact evol_settleMid st oid pi
  · rw [he]
    refine evol_trans (evol_settleMid st oid pi) (evol_trans ?_ (evol_confirmOrder _ oid))
    exact evol_orders_eq (frame_createTicketsForOrder env oid u pi _ _ 0).1

theorem hps_evol (env : HandlerEnv) (st : DBState) (ev : WebhookEvent) :
    ordersStatusEvolution st (handlePaymentIntentSucceeded env st ev) := by
  rcases handlePaymentIntentSucceeded_shape env st ev with he | ⟨oid, pi, he⟩ | ⟨oid, pi, u, he⟩
  · rw [he]; exact evol_refl st
  · rw [he]; exact evol_setPI st oid pi
  · rw [he]
    refine evol_trans (evol_setPI st oid pi) (evol_trans ?_ (evol_confirmOrder _ oid))
    exact evol_orders_eq (frame_createTicketsForOrder env oid u pi _ _ 0).1

/- Latch lemmas. -/

theorem latch_refl (st : DBState) : preservesUsedLatch st st := fun _ h => h

theorem latch_trans {a b c : DBState} (h1 : preservesUsedLatch a b)
    (h2 : preservesUsedLatch b c) : preservesUsedLatch a c :=
  fun tid h => h2 tid (h1 tid h)

theorem latch_tickets_eq {a b : DBState} (h : b.tickets = a.tickets) :
    preservesUsedLatch a b := by
  intro tid ⟨t, ht, hprop⟩
  exact ⟨t, by rw [h]; exact ht, hprop⟩

theorem latch_append {a b : DBState} (ext : List TicketRow)
    (h : b.tickets = a.tickets ++ ext) : preservesUsedLatch a b := by
  intro tid ⟨t, ht, hprop⟩
  exact ⟨t, by rw [h]; exact List.mem_append_left _ ht, hprop⟩

theorem latch_map {a b : DBState} (g : TicketRow → TicketRow)
    (h : b.tickets = a.tickets.map g)
    (hg : ∀ t, t.used = 1 → (g t).id = t.id ∧ (g t).used = 1) :
    preservesUsedLatch a b := by
  intro tid ⟨t, ht, hid, hused⟩
  refine ⟨g t, by rw [h]; exact List.mem_map_of_mem g ht, ?_, (hg t hused).2⟩
  rw [(hg t hused).1, hid]

theorem latch_markTicketUsed (st : DBState) (now tid : Str) :
    preservesUsedLatch st (MarkTicketUsed st now tid) := by
  apply latch_map _ rfl
  intro t ht
  by_cases hc : t.id = tid
  · rw [if_pos hc]; exact ⟨rfl, rfl⟩
  · rw [if_neg hc]; exact ⟨rfl, ht⟩

theorem latch_markTicketUsedIfNotUsed (st : DBState) (now tid : Str) :
    preservesUsedLatch st (MarkTicketUsedIfNotUsed st now tid).2 := by
  apply latch_map _ rfl
  intro t ht
  have hc : ¬ (t.id = tid ∧ t.used = 0) := by
    rintro ⟨_, h0⟩
    rw [ht] at h0
    cases h0
  rw [if_neg hc]
  exact ⟨rfl, ht⟩

theorem latch_hcc (env : HandlerEnv) (st : DBState) (ev : WebhookEvent) :
    preservesUsedLatch st (handleCheckoutCompleted env st ev) := by
  rcases handleCheckoutCompleted_shape env st ev with he | ⟨oid, pi, he⟩ | ⟨oid, pi, u, he⟩
  · rw [he]; exact latch_refl st
  · rw [he]; exact latch_tickets_eq (settleMid_tickets st oid pi)
  · rw [he]
    obtain ⟨ext, hext⟩ := (frame_createTicketsForOrder env oid u pi
      (OrderItemsByOrderID (settleMid st oid pi) oid) (settleMid st oid pi) 0).2.2.2.2.2.2.1
    refine latch_trans (latch_trans (latch_tickets_eq (settleMid_tickets st oid pi))
      (latch_append ext hext)) (latch_tickets_eq ?_)
    rfl

theorem latch_hps (env : HandlerEnv) (st : DBState) (ev : WebhookEvent) :
    preservesUsedLatch st (handlePaymentIntentSucceeded env st ev) := by
  rcases handlePaymentIntentSucceeded_shape env st ev with he | ⟨oid, pi, he⟩ | ⟨oid, pi, u, he⟩
  · rw [he]; exact latch_refl st
  · rw [he]; exact latch_tickets_eq rfl
  · rw [he]
    obtain ⟨ext, hext⟩ := (frame_createTicketsForOrder env oid u pi
      (OrderItemsByOrderID (SetOrderStripePaymentIntentID st oid pi) oid)
      (SetOrderStripePaymentIntentID st oid pi) 0).2.2.2.2.2.2.1
    refine latch_trans (latch_trans (latch_tickets_eq rfl)
      (latch_append ext hext)) (latch_tickets_eq ?_)
    rfl

theorem insertWebhookEvent_tickets (st : DBState) (r e t : Str) :
    (InsertWebhookEvent st r e t).tickets = st.tickets := by
  unfold InsertWebhookEvent; split <;> rfl

theorem insertWebhookEvent_exists (st : DBState) (r e t : Str) :
    WebhookEventExists (InsertWebhookEvent st r e t) e = true := by
  by_cases hc : WebhookEventExists st e
  · unfold InsertWebhookEvent
    rw [if_pos hc]
    exact hc
  · unfold InsertWebhookEvent
    rw [if_neg hc]
    unfold WebhookEventExists
    simp [List.any_append]

theorem markProcessed_exists (st : DBState) (e2 e : Str) :
    WebhookEventExists (MarkWebhookEventProcessed st e2) e = WebhookEventExists st e := by
  unfold WebhookEventExists MarkWebhookEventProcessed
  simp only [List.any_map]
  congr 1
  funext w
  simp only [Function.comp]
  by_cases hc : w.stripeEventID = e2
  · simp [hc]
  · simp [hc]

theorem hcc_exists (env : HandlerEnv) (st : DBState) (ev : WebhookEvent) (e : Str) :
    WebhookEventExists (handleCheckoutCompleted env st ev) e = WebhookEventExists st e := by
  unfold WebhookEventExists
  rw [hcc_webhookEvents]

theorem verify_empty_header (secret : Str) (now : Int)
    (parse : Str → Option WebhookEvent) (body : Str) :
    VerifyWebhookSignature secret now parse body [] = none := by
  unfold VerifyWebhookSignature
  split
  · rfl
  · dsimp only []
    have hcond : (parseSigHeader ([] : Str)).1 = [] ∨ (parseSigHeader ([] : Str)).2 = [] :=
      Or.inl rfl
    rw [if_pos hcond]

theorem latch_handleWebhook (env : HandlerEnv) (st : DBState) (body sig : Str) :
    preservesUsedLatch st (HandleWebhook env st body sig).2 := by
  unfold HandleWebhook
  split
  · exact latch_refl st
  · split
    · exact latch_refl st
    · next event heq =>
        split
        · exact latch_refl st
        · dsimp only []
          have l1 : preservesUsedLatch st (if env.insertWebhookEventFails = true then st
              else InsertWebhookEvent st env.freshWebhookRowID event.id event.type) := by
            split
            · exact latch_refl st
            · exact latch_tickets_eq (insertWebhookEvent_tickets st _ _ _)
          have l2 : ∀ s1 : DBState, preservesUsedLatch s1
              (if event.type = chars "checkout.session.completed" then
                handleCheckoutCompleted env s1 event else s1) := by
            intro s1
            split
            · exact latch_hcc env s1 event
            · exact latch_refl s1
          exact latch_trans (latch_trans l1 (l2 _)) (latch_tickets_eq rfl)

theorem hw_seen_ack (env : HandlerEnv) (st : DBState) (body sig : Str) (e : WebhookEvent)
    (hv : VerifyWebhookSignature env.webhookSecret env.now env.parseEvent body sig = some e)
    (hex : WebhookEventExists st e.id = true) :
    HandleWebhook env st body sig = (200, st) := by
  have hsig : sig ≠ [] := by
    intro h0
    rw [h0, verify_empty_header] at hv
    cases hv
  unfold HandleWebhook
  rw [if_neg hsig, hv]
  dsimp only []
  rw [if_pos hex]

theorem hw_fresh_run (env : HandlerEnv) (st : DBState) (body sig : Str) (e : WebhookEvent)
    (hv : VerifyWebhookSignature env.webhookSecret env.now env.parseEvent body sig = some e)
    (hex : WebhookEventExists st e.id = false) :
    HandleWebhook env st body sig =
      (200, MarkWebhookEventProcessed
        (if e.type = chars "checkout.session.completed" then
          handleCheckoutCompleted env
            (if env.insertWebhookEventFails = true then st
             else InsertWebhookEvent st env.freshWebhookRowID e.id e.type) e
         else
          (if env.insertWebhookEventFails = true then st
           else InsertWebhookEvent st env.freshWebhookRowID e.id e.type)) e.id) := by
  have hsig : sig ≠ [] := by
    intro h0
    rw [h0, verify_empty_header] at hv
    cases hv
  unfold HandleWebhook
  rw [if_neg hsig, hv]
  dsimp only []
  rw [if_neg (by rw [hex]; simp)]

theorem any_eq_mem (l : List Str) (x : Str) :
    (l.any fun sig => sig = x) = true ↔ x ∈ l := by
  rw [List.any_eq_true]
  constructor
  · rintro ⟨y, hy, hyx⟩
    rw [decide_eq_true_eq] at hyx
    rwa [← hyx]
  · intro hx
    exact ⟨x, hx, by simp⟩

theorem verify_characterization (secret : Str) (now : Int)
    (parse : Str → Option WebhookEvent) (payload hdr : Str) (e : WebhookEvent) :
    VerifyWebhookSignature secret now parse payload hdr = some e ↔
      (secret ≠ [] ∧ (parseSigHeader hdr).1 ≠ [] ∧ (parseSigHeader hdr).2 ≠ [] ∧
       ∃ ts, parseInt64 (parseSigHeader hdr).1 = some ts ∧ (now - ts).natAbs ≤ 300 ∧
         hexEncode (hmacSha256 secret ((parseSigHeader hdr).1 ++ separator :: payload)) ∈
           (parseSigHeader hdr).2 ∧
         parse payload = some e) := by
  unfold VerifyWebhookSignature
  by_cases h1 : secret = []
  · rw [if_pos h1]
    simp [h1]
  · rw [if_neg h1]
    dsimp only []
    by_cases h2 : (parseSigHeader hdr).1 = [] ∨ (parseSigHeader hdr).2 = []
    · rw [if_pos h2]
      constructor
      · intro h; cases h
      · rintro ⟨_, ha, hb, _⟩
        rcases h2 with h2 | h2
        · exact absurd h2 ha
        · exact absurd h2 hb
    · rw [if_neg h2]
      push_neg at h2
      cases h3 : parseInt64 (parseSigHeader hdr).1 with
      | none =>
          constructor
          · intro h; cases h
          · rintro ⟨_, _, _, ts, hts, _⟩
            cases hts
      | some ts =>
          dsimp only []
          by_cases h4 : (now - ts).natAbs > 300
          · rw [if_pos h4]
            constructor
            · intro h; cases h
            · rintro ⟨_, _, _, ts2, hts2, hle, _⟩
              cases hts2
              omega
          · rw [if_neg h4]
            by_cases h5 : ((parseSigHeader hdr).2.any fun sig =>
                sig = hexEncode (hmacSha256 secret ((parseSigHeader hdr).1 ++ separator :: payload))) = true
            · rw [if_pos h5]
              rw [any_eq_mem] at h5
              constructor
              · intro hp
                exact ⟨h1, h2.1, h2.2, ts, rfl, by omega, h5, hp⟩
              · rintro ⟨_, _, _, _, _, _, _, hp⟩
                exact hp
            · rw [if_neg h5]
              constructor
              · intro h; cases h
              · rintro ⟨_, _, _, ts2, hts2, _, hmem, _⟩
                cases hts2
                exact absurd ((any_eq_mem _ _).mpr hmem) h5

theorem setPI_status_map (st : DBState) (oid pi : Str) :
    (SetOrderStripePaymentIntentID st oid pi).orders.map OrderRow.status =
      st.orders.map OrderRow.status := by
  unfold SetOrderStripePaymentIntentID
  simp only [List.map_map]
  apply map_eq_of_eq
  intro o _
  by_cases hc : o.id = oid
  · simp [hc]
  · simp [hc]

theorem settleMid_status_map (st : DBState) (oid pi : Str) :
    (settleMid st oid pi).orders.map OrderRow.status = st.orders.map OrderRow.status := by
  unfold settleMid
  split
  · rfl
  · exact setPI_status_map st oid pi

theorem ticket_id_unique (l : List TicketRow) (hnd : (l.map TicketRow.id).Nodup)
    (a b : TicketRow) (ha : a ∈ l) (hb : b ∈ l) (h : a.id = b.id) : a = b :=
  List.inj_on_of_nodup_map hnd ha hb h

/- ---------------------------------------------------------------------
   Claim theorems.
   --------------------------------------------------------------------- -/

/-- C6 counterexample: the empty ticket id contains no delimiter, yet the
legacy round trip fails on it — the structural `idx <= 0` check rejects the
signed payload of the empty id, returning ("", false) instead of ("", true). -/
theorem c6_sign_verify_counterexample :
    VerifySignedPayload (GenerateSignedPayload [] (chars "k")) (chars "k") = ([], false) ∧
    (∀ b ∈ ([] : Str), b ≠ separator ∧ b ≠ 58) := by
  refine ⟨by decide, ?_⟩
  intro b hb
  cases hb

/-- C6 (amended): verify ∘ sign is the identity-with-ok for every NONEMPTY
legacy ticket id (no delimiter restriction needed), and for every extended
triple whose ticket id and charge id avoid the inner ":" delimiter. -/
theorem c6_sign_verify_roundtrip :
    (∀ t s : Str, t ≠ [] → VerifySignedPayload (GenerateSignedPayload t s) s = (t, true)) ∧
    (∀ t c e s : Str, 58 ∉ t → 58 ∉ c →
      VerifySignedPayloadV2 (GenerateSignedPayloadV2 t c e s) s = (t, c, e, true)) :=
  ⟨verify_generate_legacy, verifyV2_generateV2⟩

/-- C6 witness: the round trip evaluated on concrete ids and secrets. -/
theorem c6_sign_verify_roundtrip_witness :
    ((chars "t1" : Str) ≠ [] ∧
     VerifySignedPayload (GenerateSignedPayload (chars "t1") (chars "k1")) (chars "k1") =
       (chars "t1", true)) ∧
    (58 ∉ chars "t1" ∧ 58 ∉ chars "ch1" ∧
     VerifySignedPayloadV2
       (GenerateSignedPayloadV2 (chars "t1") (chars "ch1") (chars "ev1") (chars "k1"))
       (chars "k1") = (chars "t1", chars "ch1", chars "ev1", true)) :=
  ⟨⟨by decide, c6_sign_verify_roundtrip.1 (chars "t1") (chars "k1") (by decide)⟩,
   ⟨by decide, by decide,
    c6_sign_verify_roundtrip.2 (chars "t1") (chars "ch1") (chars "ev1") (chars "k1")
      (by decide) (by decide)⟩⟩

/-- C10: both codec shapes substitute "default-secret" for an empty secret:
signing and verifying with an empty secret coincide with the same operation
under "default-secret", and tokens signed under one verify under the other. -/
theorem c10_default_secret_substitution :
    (∀ t : Str, GenerateSignedPayload t [] = GenerateSignedPayload t defaultSecret) ∧
    (∀ p : Str, VerifySignedPayload p [] = VerifySignedPayload p defaultSecret) ∧
    (∀ t c e : Str, GenerateSignedPayloadV2 t c e [] = GenerateSignedPayloadV2 t c e defaultSecret) ∧
    (∀ p : Str, VerifySignedPayloadV2 p [] = VerifySignedPayloadV2 p defaultSecret) ∧
    (∀ t : Str, t ≠ [] →
      VerifySignedPayload (GenerateSignedPayload t []) defaultSecret = (t, true) ∧
      VerifySignedPayload (GenerateSignedPayload t defaultSecret) [] = (t, true)) ∧
    (∀ t c e : Str, 58 ∉ t → 58 ∉ c →
      VerifySignedPayloadV2 (GenerateSignedPayloadV2 t c e []) defaultSecret = (t, c, e, true) ∧
      VerifySignedPayloadV2 (GenerateSignedPayloadV2 t c e defaultSecret) [] = (t, c, e, true)) := by
  refine ⟨gen_legacy_empty_secret, verify_legacy_empty_secret, gen_v2_empty_secret,
    verify_v2_empty_secret, ?_, ?_⟩
  · intro t ht
    constructor
    · rw [gen_legacy_empty_secret]
      exact verify_generate_legacy t defaultSecret ht
    · rw [verify_legacy_empty_secret]
      exact verify_generate_legacy t defaultSecret ht
  · intro t c e ht hc
    constructor
    · rw [gen_v2_empty_secret]
      exact verifyV2_generateV2 t c e defaultSecret ht hc
    · rw [verify_v2_empty_secret]
      exact verifyV2_generateV2 t c e defaultSecret ht hc

/-- C10 witness: cross-secret verification at a concrete ticket id. -/
theorem c10_default_secret_substitution_witness :
    (chars "a" : Str) ≠ [] ∧
    VerifySignedPayload (GenerateSignedPayload (chars "a") []) defaultSecret = (chars "a", true) ∧
    VerifySignedPayload (GenerateSignedPayload (chars "a") defaultSecret) [] = (chars "a", true) :=
  ⟨by decide, c10_default_secret_substitution.2.2.2.2.1 (chars "a") (by decide)⟩

/-- C9 counterexample: with an unconfigured (empty) webhook secret, a request
satisfying every condition of the claim — well-formed header, fresh
timestamp, matching lowercase-hex HMAC under the (empty) secret, parseable
body — is still rejected, so the claimed iff fails. -/
theorem c9_webhook_signature_counterexample :
    VerifyWebhookSignature [] 1000 wkParse wkBody c9Hdr = none ∧
    (parseSigHeader c9Hdr).1 ≠ [] ∧ (parseSigHeader c9Hdr).2 ≠ [] ∧
    parseInt64 (parseSigHeader c9Hdr).1 = some 1000 ∧
    ((1000 : Int) - 1000).natAbs ≤ 300 ∧
    hexEncode (hmacSha256 [] ((parseSigHeader c9Hdr).1 ++ separator :: wkBody)) ∈
      (parseSigHeader c9Hdr).2 ∧
    wkParse wkBody = some wkEvent := by
  refine ⟨rfl, by decide, by decide, by decide, by decide, by decide, by decide⟩

/-- C9 (amended): VerifyWebhookSignature returns a parsed event iff the
webhook secret is configured (non-empty), the header carries a timestamp and
at least one v1 candidate, the timestamp parses and lies within 300 seconds
of the current time, some candidate equals the lowercase-hex HMAC-SHA256 of
"timestamp.body" under the secret, and the body parses; otherwise no event. -/
theorem c9_webhook_signature_iff (secret : Str) (now : Int)
    (parse : Str → Option WebhookEvent) (payload hdr : Str) (e : WebhookEvent) :
    VerifyWebhookSignature secret now parse payload hdr = some e ↔
      (secret ≠ [] ∧ (parseSigHeader hdr).1 ≠ [] ∧ (parseSigHeader hdr).2 ≠ [] ∧
       ∃ ts, parseInt64 (parseSigHeader hdr).1 = some ts ∧ (now - ts).natAbs ≤ 300 ∧
         hexEncode (hmacSha256 secret ((parseSigHeader hdr).1 ++ separator :: payload)) ∈
           (parseSigHeader hdr).2 ∧
         parse payload = some e) :=
  verify_characterization secret now parse payload hdr e

/-- C2 counterexample: the guard `available_quantity >= n` does not protect
the upper bound for a negative n: decrementing by -1 on a full lot raises
available_quantity above total_quantity. -/
theorem c2_decrement_invariant_counterexample :
    LotsInv twoUnitSt ∧ ¬ LotsInv (DecrementLotAvailable twoUnitSt (chars "L1") (-1)) := by
  decide

/-- C2 (amended): the update subtracts n exactly on the row with the given id
and available_quantity ≥ n and changes nothing otherwise; for every n ≥ 0 a
call preserves 0 ≤ available_quantity ≤ total_quantity, and hence so does any
sequence of such decrements. -/
theorem c2_decrement_preserves_invariant :
    (∀ (st : DBState) (lotID : Str) (n : Int),
      (DecrementLotAvailable st lotID n).lots.length = st.lots.length ∧
      ∀ k (h1 : k < st.lots.length) (h2 : k < (DecrementLotAvailable st lotID n).lots.length),
        (DecrementLotAvailable st lotID n).lots[k] =
          (if (st.lots[k]).id = lotID ∧ n ≤ (st.lots[k]).availableQuantity then
            { st.lots[k] with availableQuantity := (st.lots[k]).availableQuantity - n }
          else st.lots[k])) ∧
    (∀ (st : DBState) (lotID : Str) (n : Int), 0 ≤ n → LotsInv st →
      LotsInv (DecrementLotAvailable st lotID n)) ∧
    (∀ (st : DBState) (ops : List (Str × Int)), (∀ p ∈ ops, 0 ≤ p.2) → LotsInv st →
      LotsInv (ops.foldl (fun s p => DecrementLotAvailable s p.1 p.2) st)) := by
  refine ⟨?_, decrement_lotsInv, ?_⟩
  · intro st lotID n
    refine ⟨by simp [DecrementLotAvailable], ?_⟩
    intro k h1 h2
    show (st.lots.map _)[k] = _
    simp only [List.getElem_map]
  · intro st ops
    induction ops generalizing st with
    | nil => exact fun _ h => h
    | cons p rest ih =>
        intro hall h
        exact ih _ (fun q hq => hall q (by simp [hq]))
          (decrement_lotsInv st p.1 p.2 (hall p (by simp)) h)

/-- C2 witness: a unit decrement on the one-lot fixture keeps the invariant. -/
theorem c2_decrement_preserves_invariant_witness :
    ((0 : Int) ≤ 1 ∧ LotsInv twoUnitSt) ∧
    LotsInv (DecrementLotAvailable twoUnitSt (chars "L1") 1) :=
  ⟨⟨by decide, by decide⟩,
   c2_decrement_preserves_invariant.2.1 twoUnitSt (chars "L1") 1 (by decide) (by decide)⟩

/-- C1 counterexample: in the 2-units-against-1-remaining scenario the
pipeline issues TWO tickets, not one — the ticket INSERT precedes the guarded
decrement and its outcome is ignored — while available_quantity still ends at
exactly 0 thanks to the guard. -/
theorem c1_decrement_before_ticket_counterexample :
    (handleCheckoutCompleted twoUnitEnv twoUnitSt twoUnitEvent).tickets.length = 2 ∧
    ¬ (handleCheckoutCompleted twoUnitEnv twoUnitSt twoUnitEvent).tickets.length = 1 ∧
    (handleCheckoutCompleted twoUnitEnv twoUnitSt twoUnitEvent).lots.map
      LotRow.availableQuantity = [0] := by
  decide

/-- C1 (amended): the ticket of each unit is created first and the guarded
decrement is attempted afterwards with its result ignored, so in the
two-unit scenario both units get tickets, sold_quantity rises by 2, the
order is PAID and available_quantity ends at exactly 0 (never negative);
in general both settlement handlers preserve the lot bounds invariant. -/
theorem c1_settlement_inventory :
    ((handleCheckoutCompleted twoUnitEnv twoUnitSt twoUnitEvent).tickets.length = 2 ∧
     (handleCheckoutCompleted twoUnitEnv twoUnitSt twoUnitEvent).lots.map
       LotRow.availableQuantity = [0] ∧
     (handleCheckoutCompleted twoUnitEnv twoUnitSt twoUnitEvent).ticketTypes.map
       TicketTypeRow.soldQuantity = [2] ∧
     (handleCheckoutCompleted twoUnitEnv twoUnitSt twoUnitEvent).orders.map
       OrderRow.status = [chars "PAID"]) ∧
    (∀ (env : HandlerEnv) (st : DBState) (ev : WebhookEvent),
      LotsInv st → LotsInv (handleCheckoutCompleted env st ev)) ∧
    (∀ (env : HandlerEnv) (st : DBState) (ev : WebhookEvent),
      LotsInv st → LotsInv (handlePaymentIntentSucceeded env st ev)) :=
  ⟨by decide, hcc_lotsInv, hps_lotsInv⟩

/-- C1 witness: the invariant-preservation part applied to the scenario. -/
theorem c1_settlement_inventory_witness :
    LotsInv twoUnitSt ∧ LotsInv (handleCheckoutCompleted twoUnitEnv twoUnitSt twoUnitEvent) :=
  ⟨by decide, c1_settlement_inventory.2.1 twoUnitEnv twoUnitSt twoUnitEvent (by decide)⟩

/-- C8: a missing signature header or failed verification makes HandleWebhook
answer 400 with the database completely unchanged: no ledger row, no ticket,
no counter, no status. -/
theorem c8_bad_signature_rejected :
    ∀ (env : HandlerEnv) (st : DBState) (body sig : Str),
      sig = [] ∨ VerifyWebhookSignature env.webhookSecret env.now env.parseEvent body sig = none →
      HandleWebhook env st body sig = (400, st) := by
  intro env st body sig h
  rcases h with h | h
  · unfold HandleWebhook
    rw [if_pos h]
  · by_cases hsig : sig = []
    · unfold HandleWebhook
      rw [if_pos hsig]
    · unfold HandleWebhook
      rw [if_neg hsig, h]

/-- C8 witness: a request with no Stripe-Signature header gets 400 and the
empty database stays empty. -/
theorem c8_bad_signature_rejected_witness :
    (([] : Str) = [] ∨
      VerifyWebhookSignature wkEnv.webhookSecret wkEnv.now wkEnv.parseEvent wkBody [] = none) ∧
    HandleWebhook wkEnv emptySt wkBody [] = (400, emptySt) :=
  ⟨Or.inl rfl, c8_bad_signature_rejected wkEnv emptySt wkBody [] (Or.inl rfl)⟩

/-- C4: an already-recorded external event id makes HandleWebhook answer 200
with the state untouched, and a verified notification delivered twice (with
a working ledger insert) yields 200 both times and no state change on the
second delivery. -/
theorem c4_duplicate_notification_noop :
    (∀ (env : HandlerEnv) (st : DBState) (body sig : Str) (e : WebhookEvent),
      VerifyWebhookSignature env.webhookSecret env.now env.parseEvent body sig = some e →
      WebhookEventExists st e.id = true →
      HandleWebhook env st body sig = (200, st)) ∧
    (∀ (env : HandlerEnv) (st : DBState) (body sig : Str) (e : WebhookEvent),
      VerifyWebhookSignature env.webhookSecret env.now env.parseEvent body sig = some e →
      env.insertWebhookEventFails = false →
      (HandleWebhook env st body sig).1 = 200 ∧
      HandleWebhook env (HandleWebhook env st body sig).2 body sig =
        (200, (HandleWebhook env st body sig).2)) := by
  refine ⟨hw_seen_ack, ?_⟩
  intro env st body sig e hv hfail
  by_cases hex : WebhookEventExists st e.id = true
  · have h1 := hw_seen_ack env st body sig e hv hex
    rw [h1]
    exact ⟨rfl, hw_seen_ack env st body sig e hv hex⟩
  · have hexf : WebhookEventExists st e.id = false := by
      revert hex
      cases WebhookEventExists st e.id <;> simp
    have h1 := hw_fresh_run env st body sig e hv hexf
    rw [h1]
    refine ⟨rfl, ?_⟩
    apply hw_seen_ack env _ body sig e hv
    rw [markProcessed_exists]
    by_cases htype : e.type = chars "checkout.session.completed"
    · rw [if_pos htype, hcc_exists, if_neg (by rw [hfail]; simp)]
      exact insertWebhookEvent_exists st _ _ _
    · rw [if_neg htype, if_neg (by rw [hfail]; simp)]
      exact insertWebhookEvent_exists st _ _ _

/-- C4 witness: redelivering wkEvent against a ledger that already holds its
id returns 200 and leaves the state exactly as it was. -/
theorem c4_duplicate_notification_noop_witness :
    (VerifyWebhookSignature wkEnv.webhookSecret wkEnv.now wkEnv.parseEvent wkBody wkHdr =
       some wkEvent ∧
     WebhookEventExists seenSt wkEvent.id = true) ∧
    HandleWebhook wkEnv seenSt wkBody wkHdr = (200, seenSt) :=
  ⟨⟨by decide, by decide⟩,
   c4_duplicate_notification_noop.1 wkEnv seenSt wkBody wkHdr wkEvent (by decide) (by decide)⟩

/-- C7 counterexample: with the ledger INSERT failing, the handler still
acknowledges 200 (the INSERT error is discarded) and the run leaves no
ledger row behind — the notification is acknowledged, not rejected. -/
theorem c7_insert_failure_counterexample :
    (HandleWebhook wkEnvFail emptySt wkBody wkHdr).1 = 200 ∧
    (HandleWebhook wkEnvFail emptySt wkBody wkHdr).2.webhookEvents = [] := by
  decide

/-- C7 (amended): HandleWebhook ignores the result of the ledger insert: when the
insert fails on a fresh verified notification, processing continues and the
handler still responds 200, leaving the event id unrecorded. -/
theorem c7_insert_failure_still_acked :
    ∀ (env : HandlerEnv) (st : DBState) (body sig : Str) (e : WebhookEvent),
      VerifyWebhookSignature env.webhookSecret env.now env.parseEvent body sig = some e →
      WebhookEventExists st e.id = false →
      env.insertWebhookEventFails = true →
      (HandleWebhook env st body sig).1 = 200 ∧
      WebhookEventExists (HandleWebhook env st body sig).2 e.id = false := by
  intro env st body sig e hv hex hfail
  rw [hw_fresh_run env st body sig e hv hex]
  refine ⟨rfl, ?_⟩
  show WebhookEventExists (MarkWebhookEventProcessed _ e.id) e.id = false
  rw [markProcessed_exists]
  by_cases htype : e.type = chars "checkout.session.completed"
  · rw [if_pos htype, hcc_exists, if_pos hfail]
    exact hex
  · rw [if_neg htype, if_pos hfail]
    exact hex

/-- C7 witness: the amended behavior evaluated on the failing-insert run. -/
theorem c7_insert_failure_still_acked_witness :
    (VerifyWebhookSignature wkEnvFail.webhookSecret wkEnvFail.now wkEnvFail.parseEvent
        wkBody wkHdr = some wkEvent ∧
     WebhookEventExists emptySt wkEvent.id = false ∧
     wkEnvFail.insertWebhookEventFails = true) ∧
    ((HandleWebhook wkEnvFail emptySt wkBody wkHdr).1 = 200 ∧
     WebhookEventExists (HandleWebhook wkEnvFail emptySt wkBody wkHdr).2 wkEvent.id = false) :=
  ⟨⟨by decide, by decide, by decide⟩,
   c7_insert_failure_still_acked wkEnvFail emptySt wkBody wkHdr wkEvent
     (by decide) (by decide) (by decide)⟩

/-- C3: the used flag is a one-way latch: on a database with unique ticket
ids, the first guarded mark of an existing unused ticket returns true and
stamps used=1 with used_at; a call when no unused row with that id exists is
a no-op returning false (so the call after a success is); and no operation in
the core — either mark, the repository writes, either settlement handler or
the webhook entry point — ever takes a used ticket back to unused. -/
theorem c3_used_one_way_latch :
    (∀ (st : DBState) (now tid : Str) (t : TicketRow),
      (st.tickets.map TicketRow.id).Nodup → t ∈ st.tickets → t.id = tid → t.used = 0 →
      (MarkTicketUsedIfNotUsed st now tid).1 = true ∧
      (∀ x ∈ (MarkTicketUsedIfNotUsed st now tid).2.tickets, x.id = tid →
        x.used = 1 ∧ x.usedAt = some now)) ∧
    (∀ (st : DBState) (now tid : Str),
      (∀ t ∈ st.tickets, t.id = tid → t.used ≠ 0) →
      MarkTicketUsedIfNotUsed st now tid = (false, st)) ∧
    (∀ (st : DBState) (now now2 tid : Str),
      MarkTicketUsedIfNotUsed (MarkTicketUsedIfNotUsed st now tid).2 now2 tid =
        (false, (MarkTicketUsedIfNotUsed st now tid).2)) ∧
    (∀ (st : DBState) (now tid : Str), preservesUsedLatch st (MarkTicketUsed st now tid)) ∧
    (∀ (st : DBState) (now tid : Str),
      preservesUsedLatch st (MarkTicketUsedIfNotUsed st now tid).2) ∧
    (∀ (st : DBState) (oid : Str), preservesUsedLatch st (ConfirmOrder st oid)) ∧
    (∀ (st : DBState) (r e ty : Str), preservesUsedLatch st (InsertWebhookEvent st r e ty)) ∧
    (∀ (st : DBState) (e : Str), preservesUsedLatch st (MarkWebhookEventProcessed st e)) ∧
    (∀ (st : DBState) (ttid : Str) (n : Int),
      preservesUsedLatch st (IncrementTicketTypeSold st ttid n)) ∧
    (∀ (st : DBState) (l : Str) (n : Int),
      preservesUsedLatch st (DecrementLotAvailable st l n)) ∧
    (∀ (st : DBState) (oid pi : Str),
      preservesUsedLatch st (SetOrderStripePaymentIntentID st oid pi)) ∧
    (∀ (st : DBState) (a b c d : Str),
      preservesUsedLatch st (InsertTicketValidation st a b c d)) ∧
    (∀ (st st2 : DBState) (a b c d e f g h i : Str),
      CreateTicketWithID st a b c d e f g h i = some st2 → preservesUsedLatch st st2) ∧
    (∀ (env : HandlerEnv) (st : DBState) (ev : WebhookEvent),
      preservesUsedLatch st (handleCheckoutCompleted env st ev)) ∧
    (∀ (env : HandlerEnv) (st : DBState) (ev : WebhookEvent),
      preservesUsedLatch st (handlePaymentIntentSucceeded env st ev)) ∧
    (∀ (env : HandlerEnv) (st : DBState) (body sig : Str),
      preservesUsedLatch st (HandleWebhook env st body sig).2) := by
  refine ⟨?_, markTicketUsedIfNotUsed_noop, ?_, latch_markTicketUsed,
    latch_markTicketUsedIfNotUsed, ?_, ?_, ?_, ?_, ?_, ?_, ?_, ?_,
    latch_hcc, latch_hps, latch_handleWebhook⟩
  · intro st now tid t hnd hmem hid hused
    refine ⟨markTicketUsedIfNotUsed_success st now tid hnd t hmem hid hused, ?_⟩
    apply markTicketUsedIfNotUsed_sets
    intro x hx hxid
    have hxt : x = t := ticket_id_unique st.tickets hnd x t hx hmem (by rw [hxid, hid])
    rw [hxt]
    exact hused
  · intro st now now2 tid
    exact markTicketUsedIfNotUsed_noop _ now2 tid (markTicketUsedIfNotUsed_rows_after st now tid)
  · intro st oid
    exact latch_tickets_eq rfl
  · intro st r e ty
    exact latch_tickets_eq (insertWebhookEvent_tickets st r e ty)
  · intro st e
    exact latch_tickets_eq rfl
  · intro st ttid n
    exact latch_tickets_eq rfl
  · intro st l n
    exact latch_tickets_eq rfl
  · intro st oid pi
    exact latch_tickets_eq rfl
  · intro st a b c d
    exact latch_tickets_eq rfl
  · intro st st2 a b c d e f g h i hins
    exact latch_append _ (by rw [createTicketWithID_some hins])

/-- C3 witness: the latch evaluated on the one-ticket fixture. -/
theorem c3_used_one_way_latch_witness :
    ((oneTicketSt.tickets.map TicketRow.id).Nodup ∧ oneTicketRow ∈ oneTicketSt.tickets ∧
     oneTicketRow.id = chars "tk1" ∧ oneTicketRow.used = 0) ∧
    ((MarkTicketUsedIfNotUsed oneTicketSt (chars "now1") (chars "tk1")).1 = true ∧
     (∀ x ∈ (MarkTicketUsedIfNotUsed oneTicketSt (chars "now1") (chars "tk1")).2.tickets,
       x.id = chars "tk1" → x.used = 1 ∧ x.usedAt = some (chars "now1"))) :=
  ⟨⟨by decide, by decide, by decide, by decide⟩,
   c3_used_one_way_latch.1 oneTicketSt (chars "now1") (chars "tk1") oneTicketRow
     (by decide) (by decide) (by decide) (by decide)⟩

/-- C5 counterexample: a settlement run that finds the order already PAID
creates no tickets and changes no status, but it does NOT leave the order row
unchanged — the payment-intent reference is written before the status
re-check, so the resulting state differs from the initial one. -/
theorem c5_paid_terminal_counterexample :
    (handleCheckoutCompleted twoUnitEnv paidSt twoUnitEvent).tickets = [] ∧
    (handleCheckoutCompleted twoUnitEnv paidSt twoUnitEvent).orders.map
      OrderRow.status = [chars "PAID"] ∧
    (handleCheckoutCompleted twoUnitEnv paidSt twoUnitEvent).orders ≠ paidSt.orders ∧
    handleCheckoutCompleted twoUnitEnv paidSt twoUnitEvent ≠ paidSt := by
  decide

/-- C5 (amended): when the re-check finds the order not PENDING the run stops
at the payment-intent write: no ticket, no lot change, no status change (only
the stored payment-intent reference of the order may differ); every settlement run
changes order statuses only PENDING→PAID; ConfirmOrder is a no-op on a row
that is not PENDING and is idempotent. -/
theorem c5_paid_terminal :
    (∀ (env : HandlerEnv) (st : DBState) (ev : WebhookEvent) (d : EventData)
        (ses : SessionInfo) (o : OrderRow),
      ev.data = some d → d.objectID ≠ [] →
      env.retrieveSession d.objectID = some ses → ses.metadataOrderID ≠ [] →
      OrderByID (settleMid st ses.metadataOrderID ses.paymentIntent) ses.metadataOrderID =
        some o →
      o.userID ≠ [] → o.status ≠ chars "PENDING" →
      handleCheckoutCompleted env st ev = settleMid st ses.metadataOrderID ses.paymentIntent ∧
      (handleCheckoutCompleted env st ev).tickets = st.tickets ∧
      (handleCheckoutCompleted env st ev).lots = st.lots ∧
      (handleCheckoutCompleted env st ev).orders.map OrderRow.status =
        st.orders.map OrderRow.status) ∧
    (∀ (env : HandlerEnv) (st : DBState) (ev : WebhookEvent),
      ordersStatusEvolution st (handleCheckoutCompleted env st ev)) ∧
    (∀ (st : DBState) (oid : Str),
      (∀ o ∈ st.orders, o.id = oid → o.status ≠ chars "PENDING") → ConfirmOrder st oid = st) ∧
    (∀ (st : DBState) (oid : Str), ConfirmOrder (ConfirmOrder st oid) oid = ConfirmOrder st oid) := by
  refine ⟨?_, hcc_evol, confirmOrder_noop, confirmOrder_idem⟩
  intro env st ev d ses o hd hobj hses hmeta hfind huser hstat
  have hresult : handleCheckoutCompleted env st ev =
      settleMid st ses.metadataOrderID ses.paymentIntent := by
    unfold handleCheckoutCompleted
    rw [hd]
    try dsimp only []
    rw [if_neg hobj, hses]
    try dsimp only []
    rw [if_neg hmeta]
    try dsimp only []
    rw [hfind]
    try dsimp only []
    rw [if_neg huser, if_pos hstat]
  exact ⟨hresult, by rw [hresult, settleMid_tickets], by rw [hresult, settleMid_lots],
    by rw [hresult, settleMid_status_map]⟩

/-- C5 witness: the no-new-tickets, status-preserving branch evaluated on the
already-PAID fixture. -/
theorem c5_paid_terminal_witness :
    (twoUnitEvent.data = some { objectID := chars "cs1", objectMetadataOrderID := [] } ∧
     twoUnitEnv.retrieveSession (chars "cs1") =
       some { metadataOrderID := chars "O1", paymentIntent := chars "pi1" }) ∧
    (handleCheckoutCompleted twoUnitEnv paidSt twoUnitEvent =
       settleMid paidSt (chars "O1") (chars "pi1") ∧
     (handleCheckoutCompleted twoUnitEnv paidSt twoUnitEvent).tickets = paidSt.tickets ∧
     (handleCheckoutCompleted twoUnitEnv paidSt twoUnitEvent).lots = paidSt.lots ∧
     (handleCheckoutCompleted twoUnitEnv paidSt twoUnitEvent).orders.map OrderRow.status =
       paidSt.orders.map OrderRow.status) :=
  ⟨⟨by decide, by decide⟩,
   c5_paid_terminal.1 twoUnitEnv paidSt twoUnitEvent
     { objectID := chars "cs1", objectMetadataOrderID := [] }
     { metadataOrderID := chars "O1", paymentIntent := chars "pi1" }
     { id := chars "O1", userID := chars "U1", status := chars "PAID",
       stripePaymentIntentID := some (chars "pi1") }
     (by decide) (by decide) (by decide) (by decide) (by decide) (by decide) (by decide)⟩

/-- Sanity vector for the embedded hash: SHA-256 of the ASCII string abc
matches the published digest, evidencing fidelity of the codec layer. -/
theorem sha256_abc_vector :
    hexEncode (sha256 (chars "abc")) =
      chars "ba7816bf8f01cfea414140de5dae2223b00361a396177a9cb410ff61f20015ad" := by
  decide
